import Mathlib

/-!
Verification of the horizon client package: the record decoders
(`UnmarshalEffect` in clients/horizon/effect.go, `UnmarshalOperation` in
clients/horizon/operation.go) and the SSE stream engine
(`Client.stream` in clients/horizon/main.go).

Modelling conventions:
* JSON payloads are modelled post-parse as a `Json` value; numbers are
  restricted to integers (the decoders only target integer fields).
* Go's `encoding/json` unmarshalling of a struct field is modelled per
  field: an absent key or a JSON `null` leaves the Go zero value, a key of
  the wrong JSON type is an unmarshal error.  Key matching is modelled
  case-sensitively and, for duplicate keys, the last occurrence wins.
* Fields whose Go type is declared outside the analyzed files (`Link`,
  `Price`, `Asset`, `time.Time`) are kept as raw JSON / raw strings; this
  only widens the set of payloads that decode successfully and does not
  affect any other field.
* `error` values are modelled by the inductive `Err`; `errors.Wrap` with a
  non-nil error is `Err.wrap` (with a nil error it returns nil, which the
  model mirrors by not wrapping successes).
-/

/-- A parsed JSON document.  Numbers carry an unbounded integer; range
checks happen at field-decoding time, mirroring `encoding/json` overflow
errors. -/
inductive Json where
  | null
  | bool (b : Bool)
  | num (n : Int)
  | str (s : String)
  | arr (xs : List Json)
  | obj (fields : List (String × Json))

/-- Errors produced by the modelled code: `encoding/json` errors,
`errors.Wrap`, `errors.New` / `errors.Errorf`, the two unknown-discriminator
errors of the record decoders, and `io.ErrUnexpectedEOF`. -/
inductive Err where
  | jsonErr (s : String)
  | wrap (e : Err) (msg : String)
  | msg (s : String)
  | unknownEffectType (t : String)
  | unknownOperationType (i : Int)
  | unexpectedEOF
deriving DecidableEq, Repr

/-- Look up a key in a JSON object's field list; with duplicate keys the
last occurrence wins, as in `encoding/json`. -/
def lookupField (fs : List (String × Json)) (k : String) : Option Json :=
  (fs.reverse.find? (fun p => p.1 == k)).map (fun p => p.2)

/-- Unmarshal a `string`-typed struct field: absent or `null` leaves the
zero value `""`; a non-string value is an unmarshal error. -/
def getStringField (fs : List (String × Json)) (k : String) : Except Err String :=
  match lookupField fs k with
  | none => .ok ""
  | some Json.null => .ok ""
  | some (Json.str s) => .ok s
  | some _ => .error (.jsonErr ("cannot unmarshal value into string field " ++ k))

/-- Unmarshal an integer-typed struct field with the given inclusive
bounds: absent or `null` leaves the zero value `0`; an out-of-range number
or a non-number value is an unmarshal error. -/
def getIntField (fs : List (String × Json)) (k : String) (lo hi : Int) : Except Err Int :=
  match lookupField fs k with
  | none => .ok 0
  | some Json.null => .ok 0
  | some (Json.num n) =>
      if lo ≤ n ∧ n ≤ hi then .ok n
      else .error (.jsonErr ("cannot unmarshal number into integer field " ++ k))
  | some _ => .error (.jsonErr ("cannot unmarshal value into integer field " ++ k))

/-- Unmarshal an `int32`-typed struct field. -/
def getInt32Field (fs : List (String × Json)) (k : String) : Except Err Int :=
  getIntField fs k (-(2 ^ 31)) (2 ^ 31 - 1)

/-- Unmarshal an `int64`-typed (or Go `int`-typed) struct field. -/
def getInt64Field (fs : List (String × Json)) (k : String) : Except Err Int :=
  getIntField fs k (-(2 ^ 63)) (2 ^ 63 - 1)

/-- Unmarshal a `bool`-typed struct field. -/
def getBoolField (fs : List (String × Json)) (k : String) : Except Err Bool :=
  match lookupField fs k with
  | none => .ok false
  | some Json.null => .ok false
  | some (Json.bool b) => .ok b
  | some _ => .error (.jsonErr ("cannot unmarshal value into bool field " ++ k))

/-- Unmarshal a `*bool`-typed struct field: absent or `null` is a nil
pointer. -/
def getOptBoolField (fs : List (String × Json)) (k : String) : Except Err (Option Bool) :=
  match lookupField fs k with
  | none => .ok none
  | some Json.null => .ok none
  | some (Json.bool b) => .ok (some b)
  | some _ => .error (.jsonErr ("cannot unmarshal value into bool field " ++ k))

/-- Unmarshal a `*int`-typed struct field: absent or `null` is a nil
pointer. -/
def getOptIntField (fs : List (String × Json)) (k : String) : Except Err (Option Int) :=
  match lookupField fs k with
  | none => .ok none
  | some Json.null => .ok none
  | some (Json.num n) =>
      if -(2 ^ 63) ≤ n ∧ n ≤ 2 ^ 63 - 1 then .ok (some n)
      else .error (.jsonErr ("cannot unmarshal number into integer field " ++ k))
  | some _ => .error (.jsonErr ("cannot unmarshal value into integer field " ++ k))

/-- Decode a JSON array of integers. -/
def decodeIntList : List Json → Except Err (List Int)
  | [] => .ok []
  | Json.num n :: rest =>
      if -(2 ^ 63) ≤ n ∧ n ≤ 2 ^ 63 - 1 then do
        let tail ← decodeIntList rest
        return n :: tail
      else .error (.jsonErr "cannot unmarshal number into integer element")
  | _ :: _ => .error (.jsonErr "cannot unmarshal value into integer element")

/-- Decode a JSON array of strings. -/
def decodeStringList : List Json → Except Err (List String)
  | [] => .ok []
  | Json.str s :: rest => do
      let tail ← decodeStringList rest
      return s :: tail
  | _ :: _ => .error (.jsonErr "cannot unmarshal value into string element")

/-- Unmarshal an `[]int`-typed struct field: absent or `null` is a nil
slice. -/
def getOptIntListField (fs : List (String × Json)) (k : String) : Except Err (Option (List Int)) :=
  match lookupField fs k with
  | none => .ok none
  | some Json.null => .ok none
  | some (Json.arr xs) => (decodeIntList xs).map some
  | some _ => .error (.jsonErr ("cannot unmarshal value into slice field " ++ k))

/-- Unmarshal a `[]string`-typed struct field: absent or `null` is a nil
slice. -/
def getOptStringListField (fs : List (String × Json)) (k : String) : Except Err (Option (List String)) :=
  match lookupField fs k with
  | none => .ok none
  | some Json.null => .ok none
  | some (Json.arr xs) => (decodeStringList xs).map some
  | some _ => .error (.jsonErr ("cannot unmarshal value into slice field " ++ k))

/-- Model of `return v, errors.Wrap(err, msg)`: `errors.Wrap` returns nil
on a nil error, so a success passes through unwrapped. -/
def wrapWith (msg : String) : Except Err α → Except Err α
  | .ok a => .ok a
  | .error e => .error (.wrap e msg)

/-! ## Effect records (clients/horizon/effect.go) -/

/-- The `BaseEffect` struct.  The `_links` sub-struct mentions `Link`,
declared outside the analyzed files, so its raw JSON value is kept; the Go
field `Type` is spelled `Type'`. -/
structure BaseEffect where
  LinksEffect : Option Json
  ID : String
  PT : String
  Account : String
  Type' : String
  TypeI : Int
  OperationID : String
  Order : Int

structure AccountCreatedEffect where
  base : BaseEffect
  StartingBalance : String

structure AccountRemovedEffect where
  base : BaseEffect

structure AccountCreditedEffect where
  base : BaseEffect
  AssetType : String
  AssetCode : String
  AssetIssuer : String
  Amount : String

structure AccountDebitedEffect where
  base : BaseEffect
  AssetType : String
  AssetCode : String
  AssetIssuer : String
  Amount : String

structure AccountThresholdsUpdatedEffect where
  base : BaseEffect
  LowThreshold : Int
  MedThreshold : Int
  HighThreshold : Int

structure AccountHomeDomainUpdatedEffect where
  base : BaseEffect
  HomeDomain : String

structure AccountFlagsUpdatedEffect where
  base : BaseEffect
  AuthRequired : Option Bool
  AuthRevokable : Option Bool

structure AccountInflationDestinationUpdatedEffect where
  base : BaseEffect

structure SignerCreatedEffect where
  base : BaseEffect
  Weight : Int
  PublicKey : String
  Key : String

structure SignerRemovedEffect where
  base : BaseEffect
  Weight : Int
  PublicKey : String
  Key : String

structure SignerUpdatedEffect where
  base : BaseEffect
  Weight : Int
  PublicKey : String
  Key : String

structure TrustlineCreatedEffect where
  base : BaseEffect
  AssetType : String
  AssetCode : String
  AssetIssuer : String
  Limit : String

structure TrustlineRemovedEffect where
  base : BaseEffect
  AssetType : String
  AssetCode : String
  AssetIssuer : String
  Limit : String

structure TrustlineUpdatedEffect where
  base : BaseEffect
  AssetType : String
  AssetCode : String
  AssetIssuer : String
  Limit : String

structure TrustlineAuthorizedEffect where
  base : BaseEffect
  Trustor : String
  AssetType : String
  AssetCode : String

structure TrustlineDeauthorizedEffect where
  base : BaseEffect
  Trustor : String
  AssetType : String
  AssetCode : String

structure OfferCreatedEffect where
  base : BaseEffect

structure OfferRemovedEffect where
  base : BaseEffect

structure OfferUpdatedEffect where
  base : BaseEffect

structure TradeEffect where
  base : BaseEffect
  Seller : String
  OfferID : Int
  SoldAmount : String
  SoldAssetType : String
  SoldAssetCode : String
  SoldAssetIssuer : String
  BoughtAmount : String
  BoughtAssetType : String
  BoughtAssetCode : String
  BoughtAssetIssuer : String

structure DataCreatedEffect where
  base : BaseEffect

structure DataRemovedEffect where
  base : BaseEffect

structure DataUpdatedEffect where
  base : BaseEffect

/-- The `Effect` interface: a value of any struct embedding `BaseEffect`.
`AccountThresholdsUpdatedEffect` implements the interface but is never
constructed by `UnmarshalEffect` in the source. -/
inductive Effect where
  | accountCreated (e : AccountCreatedEffect)
  | accountRemoved (e : AccountRemovedEffect)
  | accountCredited (e : AccountCreditedEffect)
  | accountDebited (e : AccountDebitedEffect)
  | accountThresholdsUpdated (e : AccountThresholdsUpdatedEffect)
  | accountHomeDomainUpdated (e : AccountHomeDomainUpdatedEffect)
  | accountFlagsUpdated (e : AccountFlagsUpdatedEffect)
  | accountInflationDestinationUpdated (e : AccountInflationDestinationUpdatedEffect)
  | signerCreated (e : SignerCreatedEffect)
  | signerRemoved (e : SignerRemovedEffect)
  | signerUpdated (e : SignerUpdatedEffect)
  | trustlineCreated (e : TrustlineCreatedEffect)
  | trustlineRemoved (e : TrustlineRemovedEffect)
  | trustlineUpdated (e : TrustlineUpdatedEffect)
  | trustlineAuthorized (e : TrustlineAuthorizedEffect)
  | trustlineDeauthorized (e : TrustlineDeauthorizedEffect)
  | offerCreated (e : OfferCreatedEffect)
  | offerRemoved (e : OfferRemovedEffect)
  | offerUpdated (e : OfferUpdatedEffect)
  | trade (e : TradeEffect)
  | dataCreated (e : DataCreatedEffect)
  | dataRemoved (e : DataRemovedEffect)
  | dataUpdated (e : DataUpdatedEffect)

/-- The `EffectType` method: dynamic dispatch always lands on the promoted
`(*BaseEffect).EffectType`, returning the embedded `Type` field. -/
def EffectType : Effect → String
  | .accountCreated e => e.base.Type'
  | .accountRemoved e => e.base.Type'
  | .accountCredited e => e.base.Type'
  | .accountDebited e => e.base.Type'
  | .accountThresholdsUpdated e => e.base.Type'
  | .accountHomeDomainUpdated e => e.base.Type'
  | .accountFlagsUpdated e => e.base.Type'
  | .accountInflationDestinationUpdated e => e.base.Type'
  | .signerCreated e => e.base.Type'
  | .signerRemoved e => e.base.Type'
  | .signerUpdated e => e.base.Type'
  | .trustlineCreated e => e.base.Type'
  | .trustlineRemoved e => e.base.Type'
  | .trustlineUpdated e => e.base.Type'
  | .trustlineAuthorized e => e.base.Type'
  | .trustlineDeauthorized e => e.base.Type'
  | .offerCreated e => e.base.Type'
  | .offerRemoved e => e.base.Type'
  | .offerUpdated e => e.base.Type'
  | .trade e => e.base.Type'
  | .dataCreated e => e.base.Type'
  | .dataRemoved e => e.base.Type'
  | .dataUpdated e => e.base.Type'

/-- Unmarshal the embedded `BaseEffect` fields from an object's field
list. -/
def decodeBaseEffect (fs : List (String × Json)) : Except Err BaseEffect := do
  let id ← getStringField fs "id"
  let pt ← getStringField fs "paging_token"
  let account ← getStringField fs "account"
  let t ← getStringField fs "type"
  let typeI ← getInt32Field fs "type_i"
  let operationID ← getStringField fs "operation_id"
  let order ← getInt32Field fs "order"
  return { LinksEffect := lookupField fs "_links", ID := id, PT := pt,
           Account := account, Type' := t, TypeI := typeI,
           OperationID := operationID, Order := order }

/-- Error for unmarshalling a non-object JSON value into a struct. -/
def structErr : Err := .jsonErr "cannot unmarshal non-object value into struct"

def decodeAccountCreatedEffect : Json → Except Err AccountCreatedEffect
  | .obj fs => do
      let base ← decodeBaseEffect fs
      let startingBalance ← getStringField fs "starting_balance"
      return { base := base, StartingBalance := startingBalance }
  | _ => .error structErr

def decodeAccountRemovedEffect : Json → Except Err AccountRemovedEffect
  | .obj fs => do
      let base ← decodeBaseEffect fs
      return { base := base }
  | _ => .error structErr

def decodeAccountCreditedEffect : Json → Except Err AccountCreditedEffect
  | .obj fs => do
      let base ← decodeBaseEffect fs
      let assetType ← getStringField fs "asset_type"
      let assetCode ← getStringField fs "asset_code"
      let assetIssuer ← getStringField fs "asset_issuer"
      let amount ← getStringField fs "amount"
      return { base := base, AssetType := assetType, AssetCode := assetCode,
               AssetIssuer := assetIssuer, Amount := amount }
  | _ => .error structErr

def decodeAccountDebitedEffect : Json → Except Err AccountDebitedEffect
  | .obj fs => do
      let base ← decodeBaseEffect fs
      let assetType ← getStringField fs "asset_type"
      let assetCode ← getStringField fs "asset_code"
      let assetIssuer ← getStringField fs "asset_issuer"
      let amount ← getStringField fs "amount"
      return { base := base, AssetType := assetType, AssetCode := assetCode,
               AssetIssuer := assetIssuer, Amount := amount }
  | _ => .error structErr

def decodeAccountHomeDomainUpdatedEffect : Json → Except Err AccountHomeDomainUpdatedEffect
  | .obj fs => do
      let base ← decodeBaseEffect fs
      let homeDomain ← getStringField fs "home_domain"
      return { base := base, HomeDomain := homeDomain }
  | _ => .error structErr

def decodeAccountFlagsUpdatedEffect : Json → Except Err AccountFlagsUpdatedEffect
  | .obj fs => do
      let base ← decodeBaseEffect fs
      let authRequired ← getOptBoolField fs "auth_required_flag"
      let authRevokable ← getOptBoolField fs "auth_revokable_flag"
      return { base := base, AuthRequired := authRequired, AuthRevokable := authRevokable }
  | _ => .error structErr

def decodeAccountInflationDestinationUpdatedEffect :
    Json → Except Err AccountInflationDestinationUpdatedEffect
  | .obj fs => do
      let base ← decodeBaseEffect fs
      return { base := base }
  | _ => .error structErr

def decodeSignerCreatedEffect : Json → Except Err SignerCreatedEffect
  | .obj fs => do
      let base ← decodeBaseEffect fs
      let weight ← getInt32Field fs "weight"
      let publicKey ← getStringField fs "public_key"
      let key ← getStringField fs "key"
      return { base := base, Weight := weight, PublicKey := publicKey, Key := key }
  | _ => .error structErr

def decodeSignerRemovedEffect : Json → Except Err SignerRemovedEffect
  | .obj fs => do
      let base ← decodeBaseEffect fs
      let weight ← getInt32Field fs "weight"
      let publicKey ← getStringField fs "public_key"
      let key ← getStringField fs "key"
      return { base := base, Weight := weight, PublicKey := publicKey, Key := key }
  | _ => .error structErr

def decodeSignerUpdatedEffect : Json → Except Err SignerUpdatedEffect
  | .obj fs => do
      let base ← decodeBaseEffect fs
      let weight ← getInt32Field fs "weight"
      let publicKey ← getStringField fs "public_key"
      let key ← getStringField fs "key"
      return { base := base, Weight := weight, PublicKey := publicKey, Key := key }
  | _ => .error structErr

def decodeTrustlineCreatedEffect : Json → Except Err TrustlineCreatedEffect
  | .obj fs => do
      let base ← decodeBaseEffect fs
      let assetType ← getStringField fs "asset_type"
      let assetCode ← getStringField fs "asset_code"
      let assetIssuer ← getStringField fs "asset_issuer"
      let limit ← getStringField fs "limit"
      return { base := base, AssetType := assetType, AssetCode := assetCode,
               AssetIssuer := assetIssuer, Limit := limit }
  | _ => .error structErr

def decodeTrustlineRemovedEffect : Json → Except Err TrustlineRemovedEffect
  | .obj fs => do
      let base ← decodeBaseEffect fs
      let assetType ← getStringField fs "asset_type"
      let assetCode ← getStringField fs "asset_code"
      let assetIssuer ← getStringField fs "asset_issuer"
      let limit ← getStringField fs "limit"
      return { base := base, AssetType := assetType, AssetCode := assetCode,
               AssetIssuer := assetIssuer, Limit := limit }
  | _ => .error structErr

def decodeTrustlineUpdatedEffect : Json → Except Err TrustlineUpdatedEffect
  | .obj fs => do
      let base ← decodeBaseEffect fs
      let assetType ← getStringField fs "asset_type"
      let assetCode ← getStringField fs "asset_code"
      let assetIssuer ← getStringField fs "asset_issuer"
      let limit ← getStringField fs "limit"
      return { base := base, AssetType := assetType, AssetCode := assetCode,
               AssetIssuer := assetIssuer, Limit := limit }
  | _ => .error structErr

def decodeTrustlineAuthorizedEffect : Json → Except Err TrustlineAuthorizedEffect
  | .obj fs => do
      let base ← decodeBaseEffect fs
      let trustor ← getStringField fs "trustor"
      let assetType ← getStringField fs "asset_type"
      let assetCode ← getStringField fs "asset_code"
      return { base := base, Trustor := trustor, AssetType := assetType, AssetCode := assetCode }
  | _ => .error structErr

def decodeTrustlineDeauthorizedEffect : Json → Except Err TrustlineDeauthorizedEffect
  | .obj fs => do
      let base ← decodeBaseEffect fs
      let trustor ← getStringField fs "trustor"
      let assetType ← getStringField fs "asset_type"
      let assetCode ← getStringField fs "asset_code"
      return { base := base, Trustor := trustor, AssetType := assetType, AssetCode := assetCode }
  | _ => .error structErr

def decodeOfferCreatedEffect : Json → Except Err OfferCreatedEffect
  | .obj fs => do
      let base ← decodeBaseEffect fs
      return { base := base }
  | _ => .error structErr

def decodeOfferRemovedEffect : Json → Except Err OfferRemovedEffect
  | .obj fs => do
      let base ← decodeBaseEffect fs
      return { base := base }
  | _ => .error structErr

def decodeOfferUpdatedEffect : Json → Except Err OfferUpdatedEffect
  | .obj fs => do
      let base ← decodeBaseEffect fs
      return { base := base }
  | _ => .error structErr

def decodeTradeEffect : Json → Except Err TradeEffect
  | .obj fs => do
      let base ← decodeBaseEffect fs
      let seller ← getStringField fs "seller"
      let offerID ← getInt64Field fs "offer_id"
      let soldAmount ← getStringField fs "sold_amount"
      let soldAssetType ← getStringField fs "sold_asset_type"
      let soldAssetCode ← getStringField fs "sold_asset_code"
      let soldAssetIssuer ← getStringField fs "sold_asset_issuer"
      let boughtAmount ← getStringField fs "bought_amount"
      let boughtAssetType ← getStringField fs "bought_asset_type"
      let boughtAssetCode ← getStringField fs "bought_asset_code"
      let boughtAssetIssuer ← getStringField fs "bought_asset_issuer"
      return { base := base, Seller := seller, OfferID := offerID,
               SoldAmount := soldAmount, SoldAssetType := soldAssetType,
               SoldAssetCode := soldAssetCode, SoldAssetIssuer := soldAssetIssuer,
               BoughtAmount := boughtAmount, BoughtAssetType := boughtAssetType,
               BoughtAssetCode := boughtAssetCode, BoughtAssetIssuer := boughtAssetIssuer }
  | _ => .error structErr

def decodeDataCreatedEffect : Json → Except Err DataCreatedEffect
  | .obj fs => do
      let base ← decodeBaseEffect fs
      return { base := base }
  | _ => .error structErr

def decodeDataRemovedEffect : Json → Except Err DataRemovedEffect
  | .obj fs => do
      let base ← decodeBaseEffect fs
      return { base := base }
  | _ => .error structErr

def decodeDataUpdatedEffect : Json → Except Err DataUpdatedEffect
  | .obj fs => do
      let base ← decodeBaseEffect fs
      return { base := base }
  | _ => .error structErr

/-- Step 1 of `UnmarshalEffect`: unmarshal the discriminator struct
`struct { Type string }`. -/
def decodeEffectTypeField : Json → Except Err String
  | .obj fs => getStringField fs "type"
  | _ => .error structErr

/-- The `UnmarshalEffect` function of clients/horizon/effect.go.  The
switch mirrors the source case by case; in particular the
`"account_thresholds_updated"` case constructs an `AccountCreatedEffect`,
exactly as the source does, and the default case returns the
unknown-effect-type error without constructing any record. -/
def UnmarshalEffect (data : Json) : Except Err Effect :=
  match decodeEffectTypeField data with
  | .error err => .error (.wrap err "error unmarshaling effect")
  | .ok t =>
    match t with
    | "account_created" =>
        wrapWith "error unmarshaling effect" ((decodeAccountCreatedEffect data).map .accountCreated)
    | "account_removed" =>
        wrapWith "error unmarshaling effect" ((decodeAccountRemovedEffect data).map .accountRemoved)
    | "account_credited" =>
        wrapWith "error unmarshaling effect" ((decodeAccountCreditedEffect data).map .accountCredited)
    | "account_debited" =>
        wrapWith "error unmarshaling effect" ((decodeAccountDebitedEffect data).map .accountDebited)
    | "account_thresholds_updated" =>
        wrapWith "error unmarshaling effect" ((decodeAccountCreatedEffect data).map .accountCreated)
    | "account_home_domain_updated" =>
        wrapWith "error unmarshaling effect" ((decodeAccountHomeDomainUpdatedEffect data).map .accountHomeDomainUpdated)
    | "account_flags_updated" =>
        wrapWith "error unmarshaling effect" ((decodeAccountFlagsUpdatedEffect data).map .accountFlagsUpdated)
    | "account_inflation_destination_updated" =>
        wrapWith "error unmarshaling effect" ((decodeAccountInflationDestinationUpdatedEffect data).map .accountInflationDestinationUpdated)
    | "signer_created" =>
        wrapWith "error unmarshaling effect" ((decodeSignerCreatedEffect data).map .signerCreated)
    | "signer_removed" =>
        wrapWith "error unmarshaling effect" ((decodeSignerRemovedEffect data).map .signerRemoved)
    | "signer_updated" =>
        wrapWith "error unmarshaling effect" ((decodeSignerUpdatedEffect data).map .signerUpdated)
    | "trustline_created" =>
        wrapWith "error unmarshaling effect" ((decodeTrustlineCreatedEffect data).map .trustlineCreated)
    | "trustline_removed" =>
        wrapWith "error unmarshaling effect" ((decodeTrustlineRemovedEffect data).map .trustlineRemoved)
    | "trustline_updated" =>
        wrapWith "error unmarshaling effect" ((decodeTrustlineUpdatedEffect data).map .trustlineUpdated)
    | "trustline_authorized" =>
        wrapWith "error unmarshaling effect" ((decodeTrustlineAuthorizedEffect data).map .trustlineAuthorized)
    | "trustline_deauthorized" =>
        wrapWith "error unmarshaling effect" ((decodeTrustlineDeauthorizedEffect data).map .trustlineDeauthorized)
    | "offer_created" =>
        wrapWith "error unmarshaling effect" ((decodeOfferCreatedEffect data).map .offerCreated)
    | "offer_removed" =>
        wrapWith "error unmarshaling effect" ((decodeOfferRemovedEffect data).map .offerRemoved)
    | "offer_updated" =>
        wrapWith "error unmarshaling effect" ((decodeOfferUpdatedEffect data).map .offerUpdated)
    | "trade" =>
        wrapWith "error unmarshaling effect" ((decodeTradeEffect data).map .trade)
    | "data_created" =>
        wrapWith "error unmarshaling effect" ((decodeDataCreatedEffect data).map .dataCreated)
    | "data_removed" =>
        wrapWith "error unmarshaling effect" ((decodeDataRemovedEffect data).map .dataRemoved)
    | "data_updated" =>
        wrapWith "error unmarshaling effect" ((decodeDataUpdatedEffect data).map .dataUpdated)
    | _ => .error (.unknownEffectType t)

/-- The discriminator strings of `UnmarshalEffect`'s switch. -/
def effectTypeStrings : List String :=
  ["account_created", "account_removed", "account_credited", "account_debited",
   "account_thresholds_updated", "account_home_domain_updated",
   "account_flags_updated", "account_inflation_destination_updated",
   "signer_created", "signer_removed", "signer_updated",
   "trustline_created", "trustline_removed", "trustline_updated",
   "trustline_authorized", "trustline_deauthorized",
   "offer_created", "offer_removed", "offer_updated", "trade",
   "data_created", "data_removed", "data_updated"]

/-! ## Operation records (clients/horizon/operation.go) -/

/-- The `BaseOperation` struct.  `_links` mentions `Link` and
`LedgerClosedAt` has type `time.Time`, both declared outside the analyzed
files: the links are kept as raw JSON and the `created_at` timestamp as its
raw string (format validation elided); the Go field `Type` is spelled
`Type'`. -/
structure BaseOperation where
  Links : Option Json
  ID : String
  PT : String
  SourceAccount : String
  Type' : String
  TypeI : Int
  LedgerClosedAt : String
  TransactionHash : String
  Order : Int

structure CreateAccountOperation where
  base : BaseOperation
  StartingBalance : String
  Funder : String
  Account : String

structure PaymentOperation where
  base : BaseOperation
  AssetType : String
  AssetCode : String
  AssetIssuer : String
  From : String
  To : String
  Amount : String

/-- `PathPaymentOperation` embeds `PaymentOperation`; `Path` has element
type `Asset` (declared outside the analyzed files) and is kept as raw
JSON. -/
structure PathPaymentOperation where
  base : PaymentOperation
  Path : Option Json
  SourceMax : String
  SourceAssetType : String
  SourceAssetCode : String
  SourceAssetIssuer : String

structure ManageDataOperation where
  base : BaseOperation
  Name : String
  Value : String

/-- `CreatePassiveOfferOperation`; `PriceR` has type `Price` (declared
outside the analyzed files) and is kept as raw JSON. -/
structure CreatePassiveOfferOperation where
  base : BaseOperation
  Amount : String
  Price : String
  PriceR : Option Json
  BuyingAssetType : String
  BuyingAssetCode : String
  BuyingAssetIssuer : String
  SellingAssetType : String
  SellingAssetCode : String
  SellingAssetIssuer : String

/-- `ManageOfferOperation` embeds `CreatePassiveOfferOperation`. -/
structure ManageOfferOperation where
  base : CreatePassiveOfferOperation
  OfferID : Int

structure SetOptionsOperation where
  base : BaseOperation
  HomeDomain : String
  InflationDest : String
  MasterKeyWeight : Option Int
  SignerKey : String
  SignerWeight : Option Int
  SetFlags : Option (List Int)
  SetFlagsS : Option (List String)
  ClearFlags : Option (List Int)
  ClearFlagsS : Option (List String)
  LowThreshold : Option Int
  MedThreshold : Option Int
  HighThreshold : Option Int

structure ChangeTrustOperation where
  base : BaseOperation
  AssetType : String
  AssetCode : String
  AssetIssuer : String
  Limit : String
  Trustee : String
  Trustor : String

structure AllowTrustOperation where
  base : BaseOperation
  AssetType : String
  AssetCode : String
  AssetIssuer : String
  Trustee : String
  Trustor : String
  Authorize : Bool

structure AccountMergeOperation where
  base : BaseOperation
  Account : String
  Into : String

structure InflationOperation where
  base : BaseOperation

/-- The `Operation` interface: a value of any struct embedding
`BaseOperation` (directly or through another operation struct). -/
inductive Operation where
  | createAccount (o : CreateAccountOperation)
  | payment (o : PaymentOperation)
  | pathPayment (o : PathPaymentOperation)
  | manageOffer (o : ManageOfferOperation)
  | createPassiveOffer (o : CreatePassiveOfferOperation)
  | setOptions (o : SetOptionsOperation)
  | changeTrust (o : ChangeTrustOperation)
  | allowTrust (o : AllowTrustOperation)
  | accountMerge (o : AccountMergeOperation)
  | inflation (o : InflationOperation)
  | manageData (o : ManageDataOperation)

/-- The `OperationType` method: dynamic dispatch always lands on the
promoted `(*BaseOperation).OperationType`, returning the embedded `Type`
field (through the intermediate embedding for path payments and manage
offers). -/
def OperationType : Operation → String
  | .createAccount o => o.base.Type'
  | .payment o => o.base.Type'
  | .pathPayment o => o.base.base.Type'
  | .manageOffer o => o.base.base.Type'
  | .createPassiveOffer o => o.base.Type'
  | .setOptions o => o.base.Type'
  | .changeTrust o => o.base.Type'
  | .allowTrust o => o.base.Type'
  | .accountMerge o => o.base.Type'
  | .inflation o => o.base.Type'
  | .manageData o => o.base.Type'

/-- Unmarshal the embedded `BaseOperation` fields from an object's field
list. -/
def decodeBaseOperation (fs : List (String × Json)) : Except Err BaseOperation := do
  let id ← getStringField fs "id"
  let pt ← getStringField fs "paging_token"
  let sourceAccount ← getStringField fs "source_account"
  let t ← getStringField fs "type"
  let typeI ← getInt32Field fs "type_i"
  let ledgerClosedAt ← getStringField fs "created_at"
  let transactionHash ← getStringField fs "transaction_hash"
  let order ← getInt32Field fs "order"
  return { Links := lookupField fs "_links", ID := id, PT := pt,
           SourceAccount := sourceAccount, Type' := t, TypeI := typeI,
           LedgerClosedAt := ledgerClosedAt, TransactionHash := transactionHash,
           Order := order }

def decodeCreateAccountOperation : Json → Except Err CreateAccountOperation
  | .obj fs => do
      let base ← decodeBaseOperation fs
      let startingBalance ← getStringField fs "starting_balance"
      let funder ← getStringField fs "funder"
      let account ← getStringField fs "account"
      return { base := base, StartingBalance := startingBalance,
               Funder := funder, Account := account }
  | _ => .error structErr

def decodePaymentOperation : Json → Except Err PaymentOperation
  | .obj fs => do
      let base ← decodeBaseOperation fs
      let assetType ← getStringField fs "asset_type"
      let assetCode ← getStringField fs "asset_code"
      let assetIssuer ← getStringField fs "asset_issuer"
      let fromAccount ← getStringField fs "from"
      let toAccount ← getStringField fs "to"
      let amount ← getStringField fs "amount"
      return { base := base, AssetType := assetType, AssetCode := assetCode,
               AssetIssuer := assetIssuer, From := fromAccount, To := toAccount,
               Amount := amount }
  | _ => .error structErr

def decodePathPaymentOperation : Json → Except Err PathPaymentOperation
  | .obj fs => do
      let base ← decodePaymentOperation (.obj fs)
      let sourceMax ← getStringField fs "source_max"
      let sourceAssetType ← getStringField fs "source_asset_type"
      let sourceAssetCode ← getStringField fs "source_asset_code"
      let sourceAssetIssuer ← getStringField fs "source_asset_issuer"
      return { base := base, Path := lookupField fs "path", SourceMax := sourceMax,
               SourceAssetType := sourceAssetType, SourceAssetCode := sourceAssetCode,
               SourceAssetIssuer := sourceAssetIssuer }
  | _ => .error structErr

def decodeManageDataOperation : Json → Except Err ManageDataOperation
  | .obj fs => do
      let base ← decodeBaseOperation fs
      let name ← getStringField fs "name"
      let value ← getStringField fs "value"
      return { base := base, Name := name, Value := value }
  | _ => .error structErr

def decodeCreatePassiveOfferOperation : Json → Except Err CreatePassiveOfferOperation
  | .obj fs => do
      let base ← decodeBaseOperation fs
      let amount ← getStringField fs "amount"
      let price ← getStringField fs "price"
      let buyingAssetType ← getStringField fs "buying_asset_type"
      let buyingAssetCode ← getStringField fs "buying_asset_code"
      let buyingAssetIssuer ← getStringField fs "buying_asset_issuer"
      let sellingAssetType ← getStringField fs "selling_asset_type"
      let sellingAssetCode ← getStringField fs "selling_asset_code"
      let sellingAssetIssuer ← getStringField fs "selling_asset_issuer"
      return { base := base, Amount := amount, Price := price,
               PriceR := lookupField fs "price_r",
               BuyingAssetType := buyingAssetType, BuyingAssetCode := buyingAssetCode,
               BuyingAssetIssuer := buyingAssetIssuer,
               SellingAssetType := sellingAssetType, SellingAssetCode := sellingAssetCode,
               SellingAssetIssuer := sellingAssetIssuer }
  | _ => .error structErr

def decodeManageOfferOperation : Json → Except Err ManageOfferOperation
  | .obj fs => do
      let base ← decodeCreatePassiveOfferOperation (.obj fs)
      let offerID ← getInt64Field fs "offer_id"
      return { base := base, OfferID := offerID }
  | _ => .error structErr

def decodeSetOptionsOperation : Json → Except Err SetOptionsOperation
  | .obj fs => do
      let base ← decodeBaseOperation fs
      let homeDomain ← getStringField fs "home_domain"
      let inflationDest ← getStringField fs "inflation_dest"
      let masterKeyWeight ← getOptIntField fs "master_key_weight"
      let signerKey ← getStringField fs "signer_key"
      let signerWeight ← getOptIntField fs "signer_weight"
      let setFlags ← getOptIntListField fs "set_flags"
      let setFlagsS ← getOptStringListField fs "set_flags_s"
      let clearFlags ← getOptIntListField fs "clear_flags"
      let clearFlagsS ← getOptStringListField fs "clear_flags_s"
      let lowThreshold ← getOptIntField fs "low_threshold"
      let medThreshold ← getOptIntField fs "med_threshold"
      let highThreshold ← getOptIntField fs "high_threshold"
      return { base := base, HomeDomain := homeDomain, InflationDest := inflationDest,
               MasterKeyWeight := masterKeyWeight, SignerKey := signerKey,
               SignerWeight := signerWeight, SetFlags := setFlags,
               SetFlagsS := setFlagsS, ClearFlags := clearFlags,
               ClearFlagsS := clearFlagsS, LowThreshold := lowThreshold,
               MedThreshold := medThreshold, HighThreshold := highThreshold }
  | _ => .error structErr

def decodeChangeTrustOperation : Json → Except Err ChangeTrustOperation
  | .obj fs => do
      let base ← decodeBaseOperation fs
      let assetType ← getStringField fs "asset_type"
      let assetCode ← getStringField fs "asset_code"
      let assetIssuer ← getStringField fs "asset_issuer"
      let limit ← getStringField fs "limit"
      let trustee ← getStringField fs "trustee"
      let trustor ← getStringField fs "trustor"
      return { base := base, AssetType := assetType, AssetCode := assetCode,
               AssetIssuer := assetIssuer, Limit := limit,
               Trustee := trustee, Trustor := trustor }
  | _ => .error structErr

def decodeAllowTrustOperation : Json → Except Err AllowTrustOperation
  | .obj fs => do
      let base ← decodeBaseOperation fs
      let assetType ← getStringField fs "asset_type"
      let assetCode ← getStringField fs "asset_code"
      let assetIssuer ← getStringField fs "asset_issuer"
      let trustee ← getStringField fs "trustee"
      let trustor ← getStringField fs "trustor"
      let authorize ← getBoolField fs "authorize"
      return { base := base, AssetType := assetType, AssetCode := assetCode,
               AssetIssuer := assetIssuer, Trustee := trustee,
               Trustor := trustor, Authorize := authorize }
  | _ => .error structErr

def decodeAccountMergeOperation : Json → Except Err AccountMergeOperation
  | .obj fs => do
      let base ← decodeBaseOperation fs
      let account ← getStringField fs "account"
      let into ← getStringField fs "into"
      return { base := base, Account := account, Into := into }
  | _ => .error structErr

def decodeInflationOperation : Json → Except Err InflationOperation
  | .obj fs => do
      let base ← decodeBaseOperation fs
      return { base := base }
  | _ => .error structErr

/-- Modelled from the spec: the `xdr.OperationType` enumeration constants
of the repository's `xdr` package, which is not among the analyzed files.
The spec describes the Operation-family discriminator only as "`type_i` as
an integer code"; the constants are given their Stellar XDR values in
declaration order, matching the order of the switch cases in
`UnmarshalOperation`. -/
def OperationTypeCreateAccount : Int := 0

/-- Modelled from the spec: see `OperationTypeCreateAccount`. -/
def OperationTypePayment : Int := 1

/-- Modelled from the spec: see `OperationTypeCreateAccount`. -/
def OperationTypePathPayment : Int := 2

/-- Modelled from the spec: see `OperationTypeCreateAccount`. -/
def OperationTypeManageOffer : Int := 3

/-- Modelled from the spec: see `OperationTypeCreateAccount`. -/
def OperationTypeCreatePassiveOffer : Int := 4

/-- Modelled from the spec: see `OperationTypeCreateAccount`. -/
def OperationTypeSetOptions : Int := 5

/-- Modelled from the spec: see `OperationTypeCreateAccount`. -/
def OperationTypeChangeTrust : Int := 6

/-- Modelled from the spec: see `OperationTypeCreateAccount`. -/
def OperationTypeAllowTrust : Int := 7

/-- Modelled from the spec: see `OperationTypeCreateAccount`. -/
def OperationTypeAccountMerge : Int := 8

/-- Modelled from the spec: see `OperationTypeCreateAccount`. -/
def OperationTypeInflation : Int := 9

/-- Modelled from the spec: see `OperationTypeCreateAccount`. -/
def OperationTypeManageData : Int := 10

/-- Step 1 of `UnmarshalOperation`: unmarshal the discriminator struct
`struct { TypeI int32 }`. -/
def decodeOperationTypeIField : Json → Except Err Int
  | .obj fs => getInt32Field fs "type_i"
  | _ => .error structErr

/-- The `UnmarshalOperation` function of clients/horizon/operation.go.
The Go switch on `xdr.OperationType(opType.TypeI)` is an equality
dispatch over the named constants; the default case returns the
unknown-operation-type error without constructing any record. -/
def UnmarshalOperation (data : Json) : Except Err Operation :=
  match decodeOperationTypeIField data with
  | .error err => .error (.wrap err "error unmarshaling operation")
  | .ok typeI =>
    if typeI = OperationTypeCreateAccount then
      wrapWith "error unmarshaling operation" ((decodeCreateAccountOperation data).map .createAccount)
    else if typeI = OperationTypePayment then
      wrapWith "error unmarshaling operation" ((decodePaymentOperation data).map .payment)
    else if typeI = OperationTypePathPayment then
      wrapWith "error unmarshaling operation" ((decodePathPaymentOperation data).map .pathPayment)
    else if typeI = OperationTypeManageOffer then
      wrapWith "error unmarshaling operation" ((decodeManageOfferOperation data).map .manageOffer)
    else if typeI = OperationTypeCreatePassiveOffer then
      wrapWith "error unmarshaling operation" ((decodeCreatePassiveOfferOperation data).map .createPassiveOffer)
    else if typeI = OperationTypeSetOptions then
      wrapWith "error unmarshaling operation" ((decodeSetOptionsOperation data).map .setOptions)
    else if typeI = OperationTypeChangeTrust then
      wrapWith "error unmarshaling operation" ((decodeChangeTrustOperation data).map .changeTrust)
    else if typeI = OperationTypeAllowTrust then
      wrapWith "error unmarshaling operation" ((decodeAllowTrustOperation data).map .allowTrust)
    else if typeI = OperationTypeAccountMerge then
      wrapWith "error unmarshaling operation" ((decodeAccountMergeOperation data).map .accountMerge)
    else if typeI = OperationTypeInflation then
      wrapWith "error unmarshaling operation" ((decodeInflationOperation data).map .inflation)
    else if typeI = OperationTypeManageData then
      wrapWith "error unmarshaling operation" ((decodeManageDataOperation data).map .manageData)
    else .error (.unknownOperationType typeI)

/-- The discriminator codes of `UnmarshalOperation`'s switch. -/
def operationTypeCodes : List Int :=
  [OperationTypeCreateAccount, OperationTypePayment, OperationTypePathPayment,
   OperationTypeManageOffer, OperationTypeCreatePassiveOffer,
   OperationTypeSetOptions, OperationTypeChangeTrust, OperationTypeAllowTrust,
   OperationTypeAccountMerge, OperationTypeInflation, OperationTypeManageData]

/-! ## The stream engine (`Client.stream` in clients/horizon/main.go)

The engine is modelled as a function of the world it interacts with: a
list of connection attempts (what `c.HTTP.Do` and the SSE scanner produce
on each attempt), the caller's cursor, and the handler.  It returns the
run's outcome together with the full trace of observable events (requests
issued and records passed to the handler). -/

/-- The payload bytes of a data-bearing frame, as far as the engine can
observe them: either bytes that parse as a JSON document or bytes that do
not (carrying the parse error's description). -/
inductive RawData where
  | valid (j : Json)
  | invalid (errMsg : String)

/-- The `ev.Data` value of a parsed SSE event.  Its Go type is
`interface{}`; the engine accepts `string` and `[]byte` and rejects
anything else. -/
inductive EvData where
  | str (d : RawData)
  | bytes (d : RawData)
  | other

/-- One frame as the engine observes it after `scanner.Scan()` returned
true: an empty token, a token `parseEvent` rejects (carrying the error
`parseEvent` returns), or a parsed event. -/
inductive FrameKind where
  | empty
  | malformed (e : Err)
  | event (label : String) (data : EvData)

/-- One iteration of the scan loop: the result of the `ctx.Done()` poll
made at the top of the iteration, then the frame. -/
structure FrameCheck where
  ctxDone : Bool
  frame : FrameKind

/-- The observable content of one response body: the frames the scanner
yields, and the value of `scanner.Err()` once it stops (`none` for a clean
end of body). -/
structure ConnBody where
  frames : List FrameCheck
  scanErr : Option Err

/-- One connection attempt: either `c.HTTP.Do` fails, or it succeeds and
the body is read. -/
inductive ConnResult where
  | failure (e : Err)
  | success (body : ConnBody)

/-- The HTTP request the engine builds for one connection attempt.  The
`cursor` field is the only query parameter the engine ever sets; `none`
means the parameter is absent from the URL. -/
structure Request where
  method : String
  baseURL : String
  headers : List (String × String)
  cursor : Option String

/-- Request construction: `http.NewRequest("GET", baseURL?query, nil)`
followed by `req.Header.Set("Accept", "text/event-stream")`. -/
def mkStreamRequest (baseURL : String) (cursor : Option String) : Request :=
  { method := "GET", baseURL := baseURL,
    headers := [("Accept", "text/event-stream")], cursor := cursor }

/-- An observable event of a run: a request issued or a record passed to
the handler. -/
inductive Ev where
  | request (r : Request)
  | deliver (d : RawData)

/-- How a run ends: `ok` is a nil return (cancellation), `error` a non-nil
return, and `outOfWorld` marks a run still looping when the modelled list
of connection attempts is exhausted. -/
inductive RunResult where
  | ok
  | error (e : Err)
  | outOfWorld
deriving DecidableEq, Repr

/-- A run's outcome: its trace of observable events and its return
value. -/
structure RunOutcome where
  trace : List Ev
  result : RunResult

/-- Model of `json.Unmarshal(objectBytes, &object)` for
`object struct { PT string }`: `objectBytes` is nil when no record was
ever assigned on this connection, which `encoding/json` rejects as an
unexpected end of input. -/
def unmarshalPagingToken : Option RawData → Except Err String
  | none => .error (.jsonErr "unexpected end of JSON input")
  | some (.invalid m) => .error (.jsonErr m)
  | some (.valid (.obj fs)) => getStringField fs "paging_token"
  | some (.valid _) => .error structErr

/-- The inner `for scanner.Scan()` loop.  Arguments: the handler, the
remaining frames, and the current `objectBytes` (which this connection
initialized to nil).  Returns the records delivered to the handler, the
final `objectBytes`, and `some r` when the loop returned early (`r` the
value `stream` returns) or `none` when the frames were exhausted. -/
def processFrames (handler : RawData → Option Err) :
    List FrameCheck → Option RawData → List RawData × Option RawData × Option RunResult
  | [], ob => ([], ob, none)
  | f :: fs, ob =>
    if f.ctxDone then
      ([], ob, some RunResult.ok)
    else
      match f.frame with
      | .empty => processFrames handler fs ob
      | .malformed e => ([], ob, some (.error e))
      | .event label d =>
        if label ≠ "message" then processFrames handler fs ob
        else
          match d with
          | .str rd =>
            (match handler rd with
             | some e => ([rd], some rd, some (.error e))
             | none =>
               let rest := processFrames handler fs (some rd)
               (rd :: rest.1, rest.2))
          | .bytes rd =>
            (match handler rd with
             | some e => ([rd], some rd, some (.error e))
             | none =>
               let rest := processFrames handler fs (some rd)
               (rd :: rest.1, rest.2))
          | .other => ([], ob, some (.error (.msg "Invalid ev.Data type")))

/-- The outer `for` loop of `Client.stream`, one iteration per connection
attempt.  `cursor` is the current value of the `"cursor"` entry of
`query`. -/
def streamLoop (handler : RawData → Option Err) (baseURL : String) :
    List ConnResult → Option String → RunOutcome
  | [], _ => { trace := [], result := .outOfWorld }
  | conn :: conns, cursor =>
    let req := Ev.request (mkStreamRequest baseURL cursor)
    match conn with
    | .failure e => { trace := [req], result := .error e }
    | .success body =>
      match processFrames handler body.frames none with
      | (del, _, some r) => { trace := req :: del.map Ev.deliver, result := r }
      | (del, ob, none) =>
        if body.scanErr = none ∨ body.scanErr = some Err.unexpectedEOF then
          match unmarshalPagingToken ob with
          | .error e =>
            { trace := req :: del.map Ev.deliver,
              result := .error (.wrap e "error unmarshaling objectBytes") }
          | .ok pt =>
            if pt ≠ "" then
              let next := streamLoop handler baseURL conns (some pt)
              { trace := req :: (del.map Ev.deliver ++ next.trace),
                result := next.result }
            else
              { trace := req :: del.map Ev.deliver,
                result := .error (.msg "no paging_token in object: cannot continue") }
        else
          match body.scanErr with
          | some e => { trace := req :: del.map Ev.deliver, result := .error e }
          | none => { trace := req :: del.map Ev.deliver, result := .outOfWorld }

/-- The `Client.stream` method.  Go's `ctx` is modelled by the per-frame
`ctxDone` bits, `baseURL` and `cursor` as in the source (`cursor == nil`
is `none`), and the response bodies by `conns`. -/
def stream (baseURL : String) (conns : List ConnResult) (cursor : Option String)
    (handler : RawData → Option Err) : RunOutcome :=
  streamLoop handler baseURL conns cursor

/-- The requests issued during a run, in order. -/
def requestsOf (t : List Ev) : List Request :=
  t.filterMap fun e => match e with | .request r => some r | .deliver _ => none

/-- The records delivered to the handler during a run, in order. -/
def deliversOf (t : List Ev) : List RawData :=
  t.filterMap fun e => match e with | .deliver d => some d | .request _ => none

/-- The most recently delivered record after a batch `del` of further
deliveries, starting from `lastD`; this is exactly how `processFrames`
threads `objectBytes`. -/
def lastOf (lastD : Option RawData) (del : List RawData) : Option RawData :=
  del.foldl (fun _ d => some d) lastD

/-- Check that a reconnect cursor value `c` is the `paging_token` of the
most recently delivered record. -/
def cursorMatchesLast (lastD : Option RawData) (c : String) : Bool :=
  match lastD with
  | some d =>
      (match unmarshalPagingToken (some d) with
       | .ok s => s == c
       | .error _ => false)
  | none => false

/-- Scan a trace, tracking the most recently delivered record, and check
that every request carries a cursor equal to that record's
`paging_token`. -/
def reconnectsFromLastDelivered : Option RawData → List Ev → Bool
  | _, [] => true
  | _, Ev.deliver d :: t => reconnectsFromLastDelivered (some d) t
  | lastD, Ev.request r :: t =>
      (match r.cursor with
       | some c => cursorMatchesLast lastD c
       | none => false) && reconnectsFromLastDelivered lastD t

/-- Check a trace whose head request (the initial connection, whose
cursor is the caller's) is exempt: every later request must resume from
the most recently delivered record. -/
def checkTail (lastD : Option RawData) : List Ev → Bool
  | Ev.request _ :: t => reconnectsFromLastDelivered lastD t
  | [] => true
  | Ev.deliver _ :: _ => false

/-- The resumption property of a full run trace: every reconnect request
carries the `paging_token` of the most recently handler-delivered
record. -/
def resumesFromLastDelivered (t : List Ev) : Bool :=
  checkTail none t

/-- Check of a trace against a run result: every record whose handler
invocation returned an error is the final event of the trace (no later
delivery, no later request) and the run's result is exactly that
error. -/
def handlerErrorStopsRun (handler : RawData → Option Err) (result : RunResult) :
    List Ev → Bool
  | [] => true
  | Ev.deliver d :: t =>
      (match handler d with
       | some e => t.isEmpty && (result == RunResult.error e)
       | none => handlerErrorStopsRun handler result t)
  | Ev.request _ :: t => handlerErrorStopsRun handler result t

/-- A concrete effect payload whose discriminator selects the
`"account_thresholds_updated"` switch case. -/
def thresholdsPayload : Json :=
  Json.obj
    [("type", Json.str "account_thresholds_updated"), ("id", Json.str "1"),
     ("paging_token", Json.str "1-1"), ("account", Json.str "GA"),
     ("low_threshold", Json.num 1), ("med_threshold", Json.num 2),
     ("high_threshold", Json.num 3)]

/-! ## Decoder lemmas -/

/-- Inversion for a successful `Except` bind. -/
theorem except_bind_ok {α β : Type} {x : Except Err α} {f : α → Except Err β} {b : β}
    (h : (x >>= f) = .ok b) : ∃ a, x = .ok a ∧ f a = .ok b := by
  cases x with
  | error e => exact Except.noConfusion h
  | ok a => exact ⟨a, rfl, h⟩

/-- A successfully decoded `BaseEffect` carries the payload's `type`
string in its `Type` field. -/
theorem decodeBaseEffect_type {fs : List (String × Json)} {b : BaseEffect}
    (h : decodeBaseEffect fs = .ok b) : getStringField fs "type" = .ok b.Type' := by
  unfold decodeBaseEffect at h
  obtain ⟨i1, h1, h⟩ := except_bind_ok h
  obtain ⟨i2, h2, h⟩ := except_bind_ok h
  obtain ⟨i3, h3, h⟩ := except_bind_ok h
  obtain ⟨t, ht, h⟩ := except_bind_ok h
  obtain ⟨i5, h5, h⟩ := except_bind_ok h
  obtain ⟨i6, h6, h⟩ := except_bind_ok h
  obtain ⟨i7, h7, h⟩ := except_bind_ok h
  obtain rfl := Except.ok.inj h
  exact ht

/-- A successfully decoded `BaseOperation` carries the payload's `type`
string in its `Type` field. -/
theorem decodeBaseOperation_type {fs : List (String × Json)} {b : BaseOperation}
    (h : decodeBaseOperation fs = .ok b) : getStringField fs "type" = .ok b.Type' := by
  unfold decodeBaseOperation at h
  obtain ⟨i1, h1, h⟩ := except_bind_ok h
  obtain ⟨i2, h2, h⟩ := except_bind_ok h
  obtain ⟨i3, h3, h⟩ := except_bind_ok h
  obtain ⟨t, ht, h⟩ := except_bind_ok h
  obtain ⟨i5, h5, h⟩ := except_bind_ok h
  obtain ⟨i6, h6, h⟩ := except_bind_ok h
  obtain ⟨i7, h7, h⟩ := except_bind_ok h
  obtain ⟨i8, h8, h⟩ := except_bind_ok h
  obtain rfl := Except.ok.inj h
  exact ht
theorem decodeAccountCreatedEffect_base {data : Json} {v : AccountCreatedEffect}
    (h : decodeAccountCreatedEffect data = .ok v) :
    ∃ fs, data = Json.obj fs ∧ decodeBaseEffect fs = .ok v.base := by
  cases data <;> try exact Except.noConfusion h
  case obj fs =>
    refine ⟨fs, rfl, ?_⟩
    unfold decodeAccountCreatedEffect at h
    obtain ⟨b, hb, h⟩ := except_bind_ok h
    obtain ⟨x0, hx0, h⟩ := except_bind_ok h
    obtain rfl := Except.ok.inj h
    exact hb

theorem decodeAccountRemovedEffect_base {data : Json} {v : AccountRemovedEffect}
    (h : decodeAccountRemovedEffect data = .ok v) :
    ∃ fs, data = Json.obj fs ∧ decodeBaseEffect fs = .ok v.base := by
  cases data <;> try exact Except.noConfusion h
  case obj fs =>
    refine ⟨fs, rfl, ?_⟩
    unfold decodeAccountRemovedEffect at h
    obtain ⟨b, hb, h⟩ := except_bind_ok h
    obtain rfl := Except.ok.inj h
    exact hb

theorem decodeAccountCreditedEffect_base {data : Json} {v : AccountCreditedEffect}
    (h : decodeAccountCreditedEffect data = .ok v) :
    ∃ fs, data = Json.obj fs ∧ decodeBaseEffect fs = .ok v.base := by
  cases data <;> try exact Except.noConfusion h
  case obj fs =>
    refine ⟨fs, rfl, ?_⟩
    unfold decodeAccountCreditedEffect at h
    obtain ⟨b, hb, h⟩ := except_bind_ok h
    obtain ⟨x0, hx0, h⟩ := except_bind_ok h
    obtain ⟨x1, hx1, h⟩ := except_bind_ok h
    obtain ⟨x2, hx2, h⟩ := except_bind_ok h
    obtain ⟨x3, hx3, h⟩ := except_bind_ok h
    obtain rfl := Except.ok.inj h
    exact hb

theorem decodeAccountDebitedEffect_base {data : Json} {v : AccountDebitedEffect}
    (h : decodeAccountDebitedEffect data = .ok v) :
    ∃ fs, data = Json.obj fs ∧ decodeBaseEffect fs = .ok v.base := by
  cases data <;> try exact Except.noConfusion h
  case obj fs =>
    refine ⟨fs, rfl, ?_⟩
    unfold decodeAccountDebitedEffect at h
    obtain ⟨b, hb, h⟩ := except_bind_ok h
    obtain ⟨x0, hx0, h⟩ := except_bind_ok h
    obtain ⟨x1, hx1, h⟩ := except_bind_ok h
    obtain ⟨x2, hx2, h⟩ := except_bind_ok h
    obtain ⟨x3, hx3, h⟩ := except_bind_ok h
    obtain rfl := Except.ok.inj h
    exact hb

theorem decodeAccountHomeDomainUpdatedEffect_base {data : Json} {v : AccountHomeDomainUpdatedEffect}
    (h : decodeAccountHomeDomainUpdatedEffect data = .ok v) :
    ∃ fs, data = Json.obj fs ∧ decodeBaseEffect fs = .ok v.base := by
  cases data <;> try exact Except.noConfusion h
  case obj fs =>
    refine ⟨fs, rfl, ?_⟩
    unfold decodeAccountHomeDomainUpdatedEffect at h
    obtain ⟨b, hb, h⟩ := except_bind_ok h
    obtain ⟨x0, hx0, h⟩ := except_bind_ok h
    obtain rfl := Except.ok.inj h
    exact hb

theorem decodeAccountFlagsUpdatedEffect_base {data : Json} {v : AccountFlagsUpdatedEffect}
    (h : decodeAccountFlagsUpdatedEffect data = .ok v) :
    ∃ fs, data = Json.obj fs ∧ decodeBaseEffect fs = .ok v.base := by
  cases data <;> try exact Except.noConfusion h
  case obj fs =>
    refine ⟨fs, rfl, ?_⟩
    unfold decodeAccountFlagsUpdatedEffect at h
    obtain ⟨b, hb, h⟩ := except_bind_ok h
    obtain ⟨x0, hx0, h⟩ := except_bind_ok h
    obtain ⟨x1, hx1, h⟩ := except_bind_ok h
    obtain rfl := Except.ok.inj h
    exact hb

theorem decodeAccountInflationDestinationUpdatedEffect_base {data : Json} {v : AccountInflationDestinationUpdatedEffect}
    (h : decodeAccountInflationDestinationUpdatedEffect data = .ok v) :
    ∃ fs, data = Json.obj fs ∧ decodeBaseEffect fs = .ok v.base := by
  cases data <;> try exact Except.noConfusion h
  case obj fs =>
    refine ⟨fs, rfl, ?_⟩
    unfold decodeAccountInflationDestinationUpdatedEffect at h
    obtain ⟨b, hb, h⟩ := except_bind_ok h
    obtain rfl := Except.ok.inj h
    exact hb

theorem decodeSignerCreatedEffect_base {data : Json} {v : SignerCreatedEffect}
    (h : decodeSignerCreatedEffect data = .ok v) :
    ∃ fs, data = Json.obj fs ∧ decodeBaseEffect fs = .ok v.base := by
  cases data <;> try exact Except.noConfusion h
  case obj fs =>
    refine ⟨fs, rfl, ?_⟩
    unfold decodeSignerCreatedEffect at h
    obtain ⟨b, hb, h⟩ := except_bind_ok h
    obtain ⟨x0, hx0, h⟩ := except_bind_ok h
    obtain ⟨x1, hx1, h⟩ := except_bind_ok h
    obtain ⟨x2, hx2, h⟩ := except_bind_ok h
    obtain rfl := Except.ok.inj h
    exact hb

theorem decodeSignerRemovedEffect_base {data : Json} {v : SignerRemovedEffect}
    (h : decodeSignerRemovedEffect data = .ok v) :
    ∃ fs, data = Json.obj fs ∧ decodeBaseEffect fs = .ok v.base := by
  cases data <;> try exact Except.noConfusion h
  case obj fs =>
    refine ⟨fs, rfl, ?_⟩
    unfold decodeSignerRemovedEffect at h
    obtain ⟨b, hb, h⟩ := except_bind_ok h
    obtain ⟨x0, hx0, h⟩ := except_bind_ok h
    obtain ⟨x1, hx1, h⟩ := except_bind_ok h
    obtain ⟨x2, hx2, h⟩ := except_bind_ok h
    obtain rfl := Except.ok.inj h
    exact hb

theorem decodeSignerUpdatedEffect_base {data : Json} {v : SignerUpdatedEffect}
    (h : decodeSignerUpdatedEffect data = .ok v) :
    ∃ fs, data = Json.obj fs ∧ decodeBaseEffect fs = .ok v.base := by
  cases data <;> try exact Except.noConfusion h
  case obj fs =>
    refine ⟨fs, rfl, ?_⟩
    unfold decodeSignerUpdatedEffect at h
    obtain ⟨b, hb, h⟩ := except_bind_ok h
    obtain ⟨x0, hx0, h⟩ := except_bind_ok h
    obtain ⟨x1, hx1, h⟩ := except_bind_ok h
    obtain ⟨x2, hx2, h⟩ := except_bind_ok h
    obtain rfl := Except.ok.inj h
    exact hb

theorem decodeTrustlineCreatedEffect_base {data : Json} {v : TrustlineCreatedEffect}
    (h : decodeTrustlineCreatedEffect data = .ok v) :
    ∃ fs, data = Json.obj fs ∧ decodeBaseEffect fs = .ok v.base := by
  cases data <;> try exact Except.noConfusion h
  case obj fs =>
    refine ⟨fs, rfl, ?_⟩
    unfold decodeTrustlineCreatedEffect at h
    obtain ⟨b, hb, h⟩ := except_bind_ok h
    obtain ⟨x0, hx0, h⟩ := except_bind_ok h
    obtain ⟨x1, hx1, h⟩ := except_bind_ok h
    obtain ⟨x2, hx2, h⟩ := except_bind_ok h
    obtain ⟨x3, hx3, h⟩ := except_bind_ok h
    obtain rfl := Except.ok.inj h
    exact hb

theorem decodeTrustlineRemovedEffect_base {data : Json} {v : TrustlineRemovedEffect}
    (h : decodeTrustlineRemovedEffect data = .ok v) :
    ∃ fs, data = Json.obj fs ∧ decodeBaseEffect fs = .ok v.base := by
  cases data <;> try exact Except.noConfusion h
  case obj fs =>
    refine ⟨fs, rfl, ?_⟩
    unfold decodeTrustlineRemovedEffect at h
    obtain ⟨b, hb, h⟩ := except_bind_ok h
    obtain ⟨x0, hx0, h⟩ := except_bind_ok h
    obtain ⟨x1, hx1, h⟩ := except_bind_ok h
    obtain ⟨x2, hx2, h⟩ := except_bind_ok h
    obtain ⟨x3, hx3, h⟩ := except_bind_ok h
    obtain rfl := Except.ok.inj h
    exact hb

theorem decodeTrustlineUpdatedEffect_base {data : Json} {v : TrustlineUpdatedEffect}
    (h : decodeTrustlineUpdatedEffect data = .ok v) :
    ∃ fs, data = Json.obj fs ∧ decodeBaseEffect fs = .ok v.base := by
  cases data <;> try exact Except.noConfusion h
  case obj fs =>
    refine ⟨fs, rfl, ?_⟩
    unfold decodeTrustlineUpdatedEffect at h
    obtain ⟨b, hb, h⟩ := except_bind_ok h
    obtain ⟨x0, hx0, h⟩ := except_bind_ok h
    obtain ⟨x1, hx1, h⟩ := except_bind_ok h
    obtain ⟨x2, hx2, h⟩ := except_bind_ok h
    obtain ⟨x3, hx3, h⟩ := except_bind_ok h
    obtain rfl := Except.ok.inj h
    exact hb

theorem decodeTrustlineAuthorizedEffect_base {data : Json} {v : TrustlineAuthorizedEffect}
    (h : decodeTrustlineAuthorizedEffect data = .ok v) :
    ∃ fs, data = Json.obj fs ∧ decodeBaseEffect fs = .ok v.base := by
  cases data <;> try exact Except.noConfusion h
  case obj fs =>
    refine ⟨fs, rfl, ?_⟩
    unfold decodeTrustlineAuthorizedEffect at h
    obtain ⟨b, hb, h⟩ := except_bind_ok h
    obtain ⟨x0, hx0, h⟩ := except_bind_ok h
    obtain ⟨x1, hx1, h⟩ := except_bind_ok h
    obtain ⟨x2, hx2, h⟩ := except_bind_ok h
    obtain rfl := Except.ok.inj h
    exact hb

theorem decodeTrustlineDeauthorizedEffect_base {data : Json} {v : TrustlineDeauthorizedEffect}
    (h : decodeTrustlineDeauthorizedEffect data = .ok v) :
    ∃ fs, data = Json.obj fs ∧ decodeBaseEffect fs = .ok v.base := by
  cases data <;> try exact Except.noConfusion h
  case obj fs =>
    refine ⟨fs, rfl, ?_⟩
    unfold decodeTrustlineDeauthorizedEffect at h
    obtain ⟨b, hb, h⟩ := except_bind_ok h
    obtain ⟨x0, hx0, h⟩ := except_bind_ok h
    obtain ⟨x1, hx1, h⟩ := except_bind_ok h
    obtain ⟨x2, hx2, h⟩ := except_bind_ok h
    obtain rfl := Except.ok.inj h
    exact hb

theorem decodeOfferCreatedEffect_base {data : Json} {v : OfferCreatedEffect}
    (h : decodeOfferCreatedEffect data = .ok v) :
    ∃ fs, data = Json.obj fs ∧ decodeBaseEffect fs = .ok v.base := by
  cases data <;> try exact Except.noConfusion h
  case obj fs =>
    refine ⟨fs, rfl, ?_⟩
    unfold decodeOfferCreatedEffect at h
    obtain ⟨b, hb, h⟩ := except_bind_ok h
    obtain rfl := Except.ok.inj h
    exact hb

theorem decodeOfferRemovedEffect_base {data : Json} {v : OfferRemovedEffect}
    (h : decodeOfferRemovedEffect data = .ok v) :
    ∃ fs, data = Json.obj fs ∧ decodeBaseEffect fs = .ok v.base := by
  cases data <;> try exact Except.noConfusion h
  case obj fs =>
    refine ⟨fs, rfl, ?_⟩
    unfold decodeOfferRemovedEffect at h
    obtain ⟨b, hb, h⟩ := except_bind_ok h
    obtain rfl := Except.ok.inj h
    exact hb

theorem decodeOfferUpdatedEffect_base {data : Json} {v : OfferUpdatedEffect}
    (h : decodeOfferUpdatedEffect data = .ok v) :
    ∃ fs, data = Json.obj fs ∧ decodeBaseEffect fs = .ok v.base := by
  cases data <;> try exact Except.noConfusion h
  case obj fs =>
    refine ⟨fs, rfl, ?_⟩
    unfold decodeOfferUpdatedEffect at h
    obtain ⟨b, hb, h⟩ := except_bind_ok h
    obtain rfl := Except.ok.inj h
    exact hb

theorem decodeTradeEffect_base {data : Json} {v : TradeEffect}
    (h : decodeTradeEffect data = .ok v) :
    ∃ fs, data = Json.obj fs ∧ decodeBaseEffect fs = .ok v.base := by
  cases data <;> try exact Except.noConfusion h
  case obj fs =>
    refine ⟨fs, rfl, ?_⟩
    unfold decodeTradeEffect at h
    obtain ⟨b, hb, h⟩ := except_bind_ok h
    obtain ⟨x0, hx0, h⟩ := except_bind_ok h
    obtain ⟨x1, hx1, h⟩ := except_bind_ok h
    obtain ⟨x2, hx2, h⟩ := except_bind_ok h
    obtain ⟨x3, hx3, h⟩ := except_bind_ok h
    obtain ⟨x4, hx4, h⟩ := except_bind_ok h
    obtain ⟨x5, hx5, h⟩ := except_bind_ok h
    obtain ⟨x6, hx6, h⟩ := except_bind_ok h
    obtain ⟨x7, hx7, h⟩ := except_bind_ok h
    obtain ⟨x8, hx8, h⟩ := except_bind_ok h
    obtain ⟨x9, hx9, h⟩ := except_bind_ok h
    obtain rfl := Except.ok.inj h
    exact hb

theorem decodeDataCreatedEffect_base {data : Json} {v : DataCreatedEffect}
    (h : decodeDataCreatedEffect data = .ok v) :
    ∃ fs, data = Json.obj fs ∧ decodeBaseEffect fs = .ok v.base := by
  cases data <;> try exact Except.noConfusion h
  case obj fs =>
    refine ⟨fs, rfl, ?_⟩
    unfold decodeDataCreatedEffect at h
    obtain ⟨b, hb, h⟩ := except_bind_ok h
    obtain rfl := Except.ok.inj h
    exact hb

theorem decodeDataRemovedEffect_base {data : Json} {v : DataRemovedEffect}
    (h : decodeDataRemovedEffect data = .ok v) :
    ∃ fs, data = Json.obj fs ∧ decodeBaseEffect fs = .ok v.base := by
  cases data <;> try exact Except.noConfusion h
  case obj fs =>
    refine ⟨fs, rfl, ?_⟩
    unfold decodeDataRemovedEffect at h
    obtain ⟨b, hb, h⟩ := except_bind_ok h
    obtain rfl := Except.ok.inj h
    exact hb

theorem decodeDataUpdatedEffect_base {data : Json} {v : DataUpdatedEffect}
    (h : decodeDataUpdatedEffect data = .ok v) :
    ∃ fs, data = Json.obj fs ∧ decodeBaseEffect fs = .ok v.base := by
  cases data <;> try exact Except.noConfusion h
  case obj fs =>
    refine ⟨fs, rfl, ?_⟩
    unfold decodeDataUpdatedEffect at h
    obtain ⟨b, hb, h⟩ := except_bind_ok h
    obtain rfl := Except.ok.inj h
    exact hb

theorem decodeCreateAccountOperation_base {data : Json} {v : CreateAccountOperation}
    (h : decodeCreateAccountOperation data = .ok v) :
    ∃ fs, data = Json.obj fs ∧ decodeBaseOperation fs = .ok v.base := by
  cases data <;> try exact Except.noConfusion h
  case obj fs =>
    refine ⟨fs, rfl, ?_⟩
    unfold decodeCreateAccountOperation at h
    obtain ⟨b, hb, h⟩ := except_bind_ok h
    obtain ⟨x0, hx0, h⟩ := except_bind_ok h
    obtain ⟨x1, hx1, h⟩ := except_bind_ok h
    obtain ⟨x2, hx2, h⟩ := except_bind_ok h
    obtain rfl := Except.ok.inj h
    exact hb

theorem decodePaymentOperation_base {data : Json} {v : PaymentOperation}
    (h : decodePaymentOperation data = .ok v) :
    ∃ fs, data = Json.obj fs ∧ decodeBaseOperation fs = .ok v.base := by
  cases data <;> try exact Except.noConfusion h
  case obj fs =>
    refine ⟨fs, rfl, ?_⟩
    unfold decodePaymentOperation at h
    obtain ⟨b, hb, h⟩ := except_bind_ok h
    obtain ⟨x0, hx0, h⟩ := except_bind_ok h
    obtain ⟨x1, hx1, h⟩ := except_bind_ok h
    obtain ⟨x2, hx2, h⟩ := except_bind_ok h
    obtain ⟨x3, hx3, h⟩ := except_bind_ok h
    obtain ⟨x4, hx4, h⟩ := except_bind_ok h
    obtain ⟨x5, hx5, h⟩ := except_bind_ok h
    obtain rfl := Except.ok.inj h
    exact hb

theorem decodePathPaymentOperation_base {data : Json} {v : PathPaymentOperation}
    (h : decodePathPaymentOperation data = .ok v) :
    ∃ fs, data = Json.obj fs ∧ decodePaymentOperation (Json.obj fs) = .ok v.base := by
  cases data <;> try exact Except.noConfusion h
  case obj fs =>
    refine ⟨fs, rfl, ?_⟩
    unfold decodePathPaymentOperation at h
    obtain ⟨b, hb, h⟩ := except_bind_ok h
    obtain ⟨x0, hx0, h⟩ := except_bind_ok h
    obtain ⟨x1, hx1, h⟩ := except_bind_ok h
    obtain ⟨x2, hx2, h⟩ := except_bind_ok h
    obtain ⟨x3, hx3, h⟩ := except_bind_ok h
    obtain rfl := Except.ok.inj h
    exact hb

theorem decodeManageDataOperation_base {data : Json} {v : ManageDataOperation}
    (h : decodeManageDataOperation data = .ok v) :
    ∃ fs, data = Json.obj fs ∧ decodeBaseOperation fs = .ok v.base := by
  cases data <;> try exact Except.noConfusion h
  case obj fs =>
    refine ⟨fs, rfl, ?_⟩
    unfold decodeManageDataOperation at h
    obtain ⟨b, hb, h⟩ := except_bind_ok h
    obtain ⟨x0, hx0, h⟩ := except_bind_ok h
    obtain ⟨x1, hx1, h⟩ := except_bind_ok h
    obtain rfl := Except.ok.inj h
    exact hb

theorem decodeCreatePassiveOfferOperation_base {data : Json} {v : CreatePassiveOfferOperation}
    (h : decodeCreatePassiveOfferOperation data = .ok v) :
    ∃ fs, data = Json.obj fs ∧ decodeBaseOperation fs = .ok v.base := by
  cases data <;> try exact Except.noConfusion h
  case obj fs =>
    refine ⟨fs, rfl, ?_⟩
    unfold decodeCreatePassiveOfferOperation at h
    obtain ⟨b, hb, h⟩ := except_bind_ok h
    obtain ⟨x0, hx0, h⟩ := except_bind_ok h
    obtain ⟨x1, hx1, h⟩ := except_bind_ok h
    obtain ⟨x2, hx2, h⟩ := except_bind_ok h
    obtain ⟨x3, hx3, h⟩ := except_bind_ok h
    obtain ⟨x4, hx4, h⟩ := except_bind_ok h
    obtain ⟨x5, hx5, h⟩ := except_bind_ok h
    obtain ⟨x6, hx6, h⟩ := except_bind_ok h
    obtain ⟨x7, hx7, h⟩ := except_bind_ok h
    obtain rfl := Except.ok.inj h
    exact hb

theorem decodeManageOfferOperation_base {data : Json} {v : ManageOfferOperation}
    (h : decodeManageOfferOperation data = .ok v) :
    ∃ fs, data = Json.obj fs ∧ decodeCreatePassiveOfferOperation (Json.obj fs) = .ok v.base := by
  cases data <;> try exact Except.noConfusion h
  case obj fs =>
    refine ⟨fs, rfl, ?_⟩
    unfold decodeManageOfferOperation at h
    obtain ⟨b, hb, h⟩ := except_bind_ok h
    obtain ⟨x0, hx0, h⟩ := except_bind_ok h
    obtain rfl := Except.ok.inj h
    exact hb

theorem decodeSetOptionsOperation_base {data : Json} {v : SetOptionsOperation}
    (h : decodeSetOptionsOperation data = .ok v) :
    ∃ fs, data = Json.obj fs ∧ decodeBaseOperation fs = .ok v.base := by
  cases data <;> try exact Except.noConfusion h
  case obj fs =>
    refine ⟨fs, rfl, ?_⟩
    unfold decodeSetOptionsOperation at h
    obtain ⟨b, hb, h⟩ := except_bind_ok h
    obtain ⟨x0, hx0, h⟩ := except_bind_ok h
    obtain ⟨x1, hx1, h⟩ := except_bind_ok h
    obtain ⟨x2, hx2, h⟩ := except_bind_ok h
    obtain ⟨x3, hx3, h⟩ := except_bind_ok h
    obtain ⟨x4, hx4, h⟩ := except_bind_ok h
    obtain ⟨x5, hx5, h⟩ := except_bind_ok h
    obtain ⟨x6, hx6, h⟩ := except_bind_ok h
    obtain ⟨x7, hx7, h⟩ := except_bind_ok h
    obtain ⟨x8, hx8, h⟩ := except_bind_ok h
    obtain ⟨x9, hx9, h⟩ := except_bind_ok h
    obtain ⟨x10, hx10, h⟩ := except_bind_ok h
    obtain ⟨x11, hx11, h⟩ := except_bind_ok h
    obtain rfl := Except.ok.inj h
    exact hb

theorem decodeChangeTrustOperation_base {data : Json} {v : ChangeTrustOperation}
    (h : decodeChangeTrustOperation data = .ok v) :
    ∃ fs, data = Json.obj fs ∧ decodeBaseOperation fs = .ok v.base := by
  cases data <;> try exact Except.noConfusion h
  case obj fs =>
    refine ⟨fs, rfl, ?_⟩
    unfold decodeChangeTrustOperation at h
    obtain ⟨b, hb, h⟩ := except_bind_ok h
    obtain ⟨x0, hx0, h⟩ := except_bind_ok h
    obtain ⟨x1, hx1, h⟩ := except_bind_ok h
    obtain ⟨x2, hx2, h⟩ := except_bind_ok h
    obtain ⟨x3, hx3, h⟩ := except_bind_ok h
    obtain ⟨x4, hx4, h⟩ := except_bind_ok h
    obtain ⟨x5, hx5, h⟩ := except_bind_ok h
    obtain rfl := Except.ok.inj h
    exact hb

theorem decodeAllowTrustOperation_base {data : Json} {v : AllowTrustOperation}
    (h : decodeAllowTrustOperation data = .ok v) :
    ∃ fs, data = Json.obj fs ∧ decodeBaseOperation fs = .ok v.base := by
  cases data <;> try exact Except.noConfusion h
  case obj fs =>
    refine ⟨fs, rfl, ?_⟩
    unfold decodeAllowTrustOperation at h
    obtain ⟨b, hb, h⟩ := except_bind_ok h
    obtain ⟨x0, hx0, h⟩ := except_bind_ok h
    obtain ⟨x1, hx1, h⟩ := except_bind_ok h
    obtain ⟨x2, hx2, h⟩ := except_bind_ok h
    obtain ⟨x3, hx3, h⟩ := except_bind_ok h
    obtain ⟨x4, hx4, h⟩ := except_bind_ok h
    obtain ⟨x5, hx5, h⟩ := except_bind_ok h
    obtain rfl := Except.ok.inj h
    exact hb

theorem decodeAccountMergeOperation_base {data : Json} {v : AccountMergeOperation}
    (h : decodeAccountMergeOperation data = .ok v) :
    ∃ fs, data = Json.obj fs ∧ decodeBaseOperation fs = .ok v.base := by
  cases data <;> try exact Except.noConfusion h
  case obj fs =>
    refine ⟨fs, rfl, ?_⟩
    unfold decodeAccountMergeOperation at h
    obtain ⟨b, hb, h⟩ := except_bind_ok h
    obtain ⟨x0, hx0, h⟩ := except_bind_ok h
    obtain ⟨x1, hx1, h⟩ := except_bind_ok h
    obtain rfl := Except.ok.inj h
    exact hb

theorem decodeInflationOperation_base {data : Json} {v : InflationOperation}
    (h : decodeInflationOperation data = .ok v) :
    ∃ fs, data = Json.obj fs ∧ decodeBaseOperation fs = .ok v.base := by
  cases data <;> try exact Except.noConfusion h
  case obj fs =>
    refine ⟨fs, rfl, ?_⟩
    unfold decodeInflationOperation at h
    obtain ⟨b, hb, h⟩ := except_bind_ok h
    obtain rfl := Except.ok.inj h
    exact hb

/-- A successful path-payment decode reaches down to its embedded
`BaseOperation`. -/
theorem decodePathPaymentOperation_baseBase {data : Json} {v : PathPaymentOperation}
    (h : decodePathPaymentOperation data = .ok v) :
    ∃ fs, data = Json.obj fs ∧ decodeBaseOperation fs = .ok v.base.base := by
  obtain ⟨fs, rfl, h1⟩ := decodePathPaymentOperation_base h
  obtain ⟨fs2, heq, h2⟩ := decodePaymentOperation_base h1
  obtain rfl := Json.obj.inj heq
  exact ⟨fs, rfl, h2⟩

/-- A successful manage-offer decode reaches down to its embedded
`BaseOperation`. -/
theorem decodeManageOfferOperation_baseBase {data : Json} {v : ManageOfferOperation}
    (h : decodeManageOfferOperation data = .ok v) :
    ∃ fs, data = Json.obj fs ∧ decodeBaseOperation fs = .ok v.base.base := by
  obtain ⟨fs, rfl, h1⟩ := decodeManageOfferOperation_base h
  obtain ⟨fs2, heq, h2⟩ := decodeCreatePassiveOfferOperation_base h1
  obtain rfl := Json.obj.inj heq
  exact ⟨fs, rfl, h2⟩

/-- Common shape of one switch case of `UnmarshalEffect`. -/
theorem effCaseAux {α : Type} (dec : Json → Except Err α) (ctor : α → Effect)
    (baseOf : α → BaseEffect)
    (hbase : ∀ (data : Json) (v : α), dec data = .ok v →
        ∃ fs, data = Json.obj fs ∧ decodeBaseEffect fs = .ok (baseOf v))
    (htype : ∀ v, EffectType (ctor v) = (baseOf v).Type')
    {data : Json} {eff : Effect}
    (h : wrapWith "error unmarshaling effect" ((dec data).map ctor) = .ok eff) :
    ∃ fs, data = Json.obj fs ∧ getStringField fs "type" = .ok (EffectType eff) := by
  cases hx : dec data with
  | error e => rw [hx] at h; exact Except.noConfusion h
  | ok v =>
    rw [hx] at h
    obtain rfl := (Except.ok.inj h : ctor v = eff)
    obtain ⟨fs, rfl, hb⟩ := hbase _ v hx
    rw [htype v]
    exact ⟨fs, rfl, decodeBaseEffect_type hb⟩

/-- Common shape of one switch case of `UnmarshalOperation`. -/
theorem opCaseAux {α : Type} (dec : Json → Except Err α) (ctor : α → Operation)
    (baseOf : α → BaseOperation)
    (hbase : ∀ (data : Json) (v : α), dec data = .ok v →
        ∃ fs, data = Json.obj fs ∧ decodeBaseOperation fs = .ok (baseOf v))
    (htype : ∀ v, OperationType (ctor v) = (baseOf v).Type')
    {data : Json} {op : Operation}
    (h : wrapWith "error unmarshaling operation" ((dec data).map ctor) = .ok op) :
    ∃ fs, data = Json.obj fs ∧ getStringField fs "type" = .ok (OperationType op) := by
  cases hx : dec data with
  | error e => rw [hx] at h; exact Except.noConfusion h
  | ok v =>
    rw [hx] at h
    obtain rfl := (Except.ok.inj h : ctor v = op)
    obtain ⟨fs, rfl, hb⟩ := hbase _ v hx
    rw [htype v]
    exact ⟨fs, rfl, decodeBaseOperation_type hb⟩

/-! ## Claims about the record decoders -/

/-- C1, counterexample: the claim says a payload whose discriminator is
absent from the variant table decodes to a generic record tagged
"unknown" without failing; on the concrete payload
`{"type": "open_sesame"}` the decoder instead fails with the
unknown-effect-type error and yields no record at all. -/
theorem C1_counterexample :
    UnmarshalEffect (Json.obj [("type", Json.str "open_sesame")]) =
      .error (.unknownEffectType "open_sesame") := rfl

set_option maxHeartbeats 1000000 in
/-- C1, amended: for every payload whose discriminator value is absent
from the closed variant lookup table, the Record Decoder fails, returning
the unknown-discriminator error naming that value (and no record); it does
not produce an "unknown"-tagged record. -/
theorem C1_unknown_discriminator_is_error :
    (∀ (fs : List (String × Json)) (t : String),
        getStringField fs "type" = .ok t → t ∉ effectTypeStrings →
        UnmarshalEffect (Json.obj fs) = .error (.unknownEffectType t)) ∧
    (∀ (fs : List (String × Json)) (i : Int),
        getInt32Field fs "type_i" = .ok i → i ∉ operationTypeCodes →
        UnmarshalOperation (Json.obj fs) = .error (.unknownOperationType i)) := by
  constructor
  · intro fs t ht hmem
    simp only [effectTypeStrings, List.mem_cons, List.not_mem_nil, or_false, not_or] at hmem
    unfold UnmarshalEffect
    have hd : decodeEffectTypeField (Json.obj fs) = Except.ok t := ht
    rw [hd]
    split <;> simp_all
  · intro fs i ht hmem
    simp only [operationTypeCodes, OperationTypeCreateAccount, OperationTypePayment,
      OperationTypePathPayment, OperationTypeManageOffer, OperationTypeCreatePassiveOffer,
      OperationTypeSetOptions, OperationTypeChangeTrust, OperationTypeAllowTrust,
      OperationTypeAccountMerge, OperationTypeInflation, OperationTypeManageData,
      List.mem_cons, List.not_mem_nil, or_false, not_or] at hmem
    unfold UnmarshalOperation
    have hd : decodeOperationTypeIField (Json.obj fs) = Except.ok i := ht
    rw [hd]
    simp only [OperationTypeCreateAccount, OperationTypePayment,
      OperationTypePathPayment, OperationTypeManageOffer, OperationTypeCreatePassiveOffer,
      OperationTypeSetOptions, OperationTypeChangeTrust, OperationTypeAllowTrust,
      OperationTypeAccountMerge, OperationTypeInflation, OperationTypeManageData]
    rw [if_neg hmem.1, if_neg hmem.2.1, if_neg hmem.2.2.1, if_neg hmem.2.2.2.1,
        if_neg hmem.2.2.2.2.1, if_neg hmem.2.2.2.2.2.1, if_neg hmem.2.2.2.2.2.2.1,
        if_neg hmem.2.2.2.2.2.2.2.1, if_neg hmem.2.2.2.2.2.2.2.2.1,
        if_neg hmem.2.2.2.2.2.2.2.2.2.1, if_neg hmem.2.2.2.2.2.2.2.2.2.2]

/-- C1, witness: the amended theorem applied to the concrete effect
payload `{"type": "open_sesame"}` and the concrete operation payload
`{"type_i": 99}`. -/
theorem C1_witness :
    (getStringField [("type", Json.str "open_sesame")] "type" = .ok "open_sesame" ∧
     "open_sesame" ∉ effectTypeStrings ∧
     UnmarshalEffect (Json.obj [("type", Json.str "open_sesame")]) =
       .error (.unknownEffectType "open_sesame")) ∧
    (getInt32Field [("type_i", Json.num 99)] "type_i" = .ok 99 ∧
     (99 : Int) ∉ operationTypeCodes ∧
     UnmarshalOperation (Json.obj [("type_i", Json.num 99)]) =
       .error (.unknownOperationType 99)) :=
  ⟨⟨rfl, by decide, C1_unknown_discriminator_is_error.1 _ _ rfl (by decide)⟩,
   ⟨rfl, by decide, C1_unknown_discriminator_is_error.2 _ _ rfl (by decide)⟩⟩

/-- C2, code-bug evidence: a payload whose `type` discriminator is
`"account_thresholds_updated"` is decoded by `UnmarshalEffect` into a
value of the `AccountCreatedEffect` variant (never into the declared but
unused `AccountThresholdsUpdatedEffect` variant), because the source's
switch case constructs `&AccountCreatedEffect{}`; the threshold fields of
the payload are dropped. -/
theorem C2_thresholds_payload_decodes_to_account_created :
    UnmarshalEffect thresholdsPayload =
      .ok (Effect.accountCreated
        { base := { LinksEffect := none, ID := "1", PT := "1-1", Account := "GA",
                    Type' := "account_thresholds_updated", TypeI := 0,
                    OperationID := "", Order := 0 },
          StartingBalance := "" }) := rfl

/-- C10: whenever `UnmarshalEffect` succeeds, the returned Effect's
`EffectType()` equals the string decoded from the payload's `type` field,
and whenever `UnmarshalOperation` succeeds, the returned Operation's
`OperationType()` equals the string decoded from the payload's `type`
field (even though the operation dispatch reads the `type_i` integer). -/
theorem C10_returned_type_matches_payload :
    (∀ (data : Json) (eff : Effect), UnmarshalEffect data = .ok eff →
        ∃ fs, data = Json.obj fs ∧ getStringField fs "type" = .ok (EffectType eff)) ∧
    (∀ (data : Json) (op : Operation), UnmarshalOperation data = .ok op →
        ∃ fs, data = Json.obj fs ∧ getStringField fs "type" = .ok (OperationType op)) := by
  constructor
  · intro data eff h
    unfold UnmarshalEffect at h
    split at h
    · exact Except.noConfusion h
    · split at h
      · exact effCaseAux _ _ (fun v => v.base) (fun d v hx => by exact decodeAccountCreatedEffect_base hx) (fun v => rfl) h
      · exact effCaseAux _ _ (fun v => v.base) (fun d v hx => by exact decodeAccountRemovedEffect_base hx) (fun v => rfl) h
      · exact effCaseAux _ _ (fun v => v.base) (fun d v hx => by exact decodeAccountCreditedEffect_base hx) (fun v => rfl) h
      · exact effCaseAux _ _ (fun v => v.base) (fun d v hx => by exact decodeAccountDebitedEffect_base hx) (fun v => rfl) h
      · exact effCaseAux _ _ (fun v => v.base) (fun d v hx => by exact decodeAccountCreatedEffect_base hx) (fun v => rfl) h
      · exact effCaseAux _ _ (fun v => v.base) (fun d v hx => by exact decodeAccountHomeDomainUpdatedEffect_base hx) (fun v => rfl) h
      · exact effCaseAux _ _ (fun v => v.base) (fun d v hx => by exact decodeAccountFlagsUpdatedEffect_base hx) (fun v => rfl) h
      · exact effCaseAux _ _ (fun v => v.base) (fun d v hx => by exact decodeAccountInflationDestinationUpdatedEffect_base hx) (fun v => rfl) h
      · exact effCaseAux _ _ (fun v => v.base) (fun d v hx => by exact decodeSignerCreatedEffect_base hx) (fun v => rfl) h
      · exact effCaseAux _ _ (fun v => v.base) (fun d v hx => by exact decodeSignerRemovedEffect_base hx) (fun v => rfl) h
      · exact effCaseAux _ _ (fun v => v.base) (fun d v hx => by exact decodeSignerUpdatedEffect_base hx) (fun v => rfl) h
      · exact effCaseAux _ _ (fun v => v.base) (fun d v hx => by exact decodeTrustlineCreatedEffect_base hx) (fun v => rfl) h
      · exact effCaseAux _ _ (fun v => v.base) (fun d v hx => by exact decodeTrustlineRemovedEffect_base hx) (fun v => rfl) h
      · exact effCaseAux _ _ (fun v => v.base) (fun d v hx => by exact decodeTrustlineUpdatedEffect_base hx) (fun v => rfl) h
      · exact effCaseAux _ _ (fun v => v.base) (fun d v hx => by exact decodeTrustlineAuthorizedEffect_base hx) (fun v => rfl) h
      · exact effCaseAux _ _ (fun v => v.base) (fun d v hx => by exact decodeTrustlineDeauthorizedEffect_base hx) (fun v => rfl) h
      · exact effCaseAux _ _ (fun v => v.base) (fun d v hx => by exact decodeOfferCreatedEffect_base hx) (fun v => rfl) h
      · exact effCaseAux _ _ (fun v => v.base) (fun d v hx => by exact decodeOfferRemovedEffect_base hx) (fun v => rfl) h
      · exact effCaseAux _ _ (fun v => v.base) (fun d v hx => by exact decodeOfferUpdatedEffect_base hx) (fun v => rfl) h
      · exact effCaseAux _ _ (fun v => v.base) (fun d v hx => by exact decodeTradeEffect_base hx) (fun v => rfl) h
      · exact effCaseAux _ _ (fun v => v.base) (fun d v hx => by exact decodeDataCreatedEffect_base hx) (fun v => rfl) h
      · exact effCaseAux _ _ (fun v => v.base) (fun d v hx => by exact decodeDataRemovedEffect_base hx) (fun v => rfl) h
      · exact effCaseAux _ _ (fun v => v.base) (fun d v hx => by exact decodeDataUpdatedEffect_base hx) (fun v => rfl) h
      · exact Except.noConfusion h
  · intro data op h
    unfold UnmarshalOperation at h
    split at h
    · exact Except.noConfusion h
    · rename_i typeI heq
      by_cases h0 : typeI = OperationTypeCreateAccount
      · rw [if_pos h0] at h
        exact opCaseAux _ _ (fun v => v.base) (fun d v hx => by exact decodeCreateAccountOperation_base hx) (fun v => rfl) h
      rw [if_neg h0] at h
      by_cases h1 : typeI = OperationTypePayment
      · rw [if_pos h1] at h
        exact opCaseAux _ _ (fun v => v.base) (fun d v hx => by exact decodePaymentOperation_base hx) (fun v => rfl) h
      rw [if_neg h1] at h
      by_cases h2 : typeI = OperationTypePathPayment
      · rw [if_pos h2] at h
        exact opCaseAux _ _ (fun v => v.base.base) (fun d v hx => by exact decodePathPaymentOperation_baseBase hx) (fun v => rfl) h
      rw [if_neg h2] at h
      by_cases h3 : typeI = OperationTypeManageOffer
      · rw [if_pos h3] at h
        exact opCaseAux _ _ (fun v => v.base.base) (fun d v hx => by exact decodeManageOfferOperation_baseBase hx) (fun v => rfl) h
      rw [if_neg h3] at h
      by_cases h4 : typeI = OperationTypeCreatePassiveOffer
      · rw [if_pos h4] at h
        exact opCaseAux _ _ (fun v => v.base) (fun d v hx => by exact decodeCreatePassiveOfferOperation_base hx) (fun v => rfl) h
      rw [if_neg h4] at h
      by_cases h5 : typeI = OperationTypeSetOptions
      · rw [if_pos h5] at h
        exact opCaseAux _ _ (fun v => v.base) (fun d v hx => by exact decodeSetOptionsOperation_base hx) (fun v => rfl) h
      rw [if_neg h5] at h
      by_cases h6 : typeI = OperationTypeChangeTrust
      · rw [if_pos h6] at h
        exact opCaseAux _ _ (fun v => v.base) (fun d v hx => by exact decodeChangeTrustOperation_base hx) (fun v => rfl) h
      rw [if_neg h6] at h
      by_cases h7 : typeI = OperationTypeAllowTrust
      · rw [if_pos h7] at h
        exact opCaseAux _ _ (fun v => v.base) (fun d v hx => by exact decodeAllowTrustOperation_base hx) (fun v => rfl) h
      rw [if_neg h7] at h
      by_cases h8 : typeI = OperationTypeAccountMerge
      · rw [if_pos h8] at h
        exact opCaseAux _ _ (fun v => v.base) (fun d v hx => by exact decodeAccountMergeOperation_base hx) (fun v => rfl) h
      rw [if_neg h8] at h
      by_cases h9 : typeI = OperationTypeInflation
      · rw [if_pos h9] at h
        exact opCaseAux _ _ (fun v => v.base) (fun d v hx => by exact decodeInflationOperation_base hx) (fun v => rfl) h
      rw [if_neg h9] at h
      by_cases h10 : typeI = OperationTypeManageData
      · rw [if_pos h10] at h
        exact opCaseAux _ _ (fun v => v.base) (fun d v hx => by exact decodeManageDataOperation_base hx) (fun v => rfl) h
      rw [if_neg h10] at h
      exact Except.noConfusion h

/-- C10, witness: the theorem applied to the concrete effect payload
`{"type": "account_removed"}` and the concrete operation payload
`{"type_i": 9, "type": "inflation"}`. -/
theorem C10_witness :
    (UnmarshalEffect (Json.obj [("type", Json.str "account_removed")]) =
       .ok (Effect.accountRemoved
         { base := { LinksEffect := none, ID := "", PT := "", Account := "",
                     Type' := "account_removed", TypeI := 0,
                     OperationID := "", Order := 0 } }) ∧
     (∃ fs, Json.obj [("type", Json.str "account_removed")] = Json.obj fs ∧
        getStringField fs "type" =
          .ok (EffectType (Effect.accountRemoved
            { base := { LinksEffect := none, ID := "", PT := "", Account := "",
                        Type' := "account_removed", TypeI := 0,
                        OperationID := "", Order := 0 } })))) ∧
    (UnmarshalOperation (Json.obj [("type_i", Json.num 9), ("type", Json.str "inflation")]) =
       .ok (Operation.inflation
         { base := { Links := none, ID := "", PT := "", SourceAccount := "",
                     Type' := "inflation", TypeI := 9, LedgerClosedAt := "",
                     TransactionHash := "", Order := 0 } }) ∧
     (∃ fs, Json.obj [("type_i", Json.num 9), ("type", Json.str "inflation")] = Json.obj fs ∧
        getStringField fs "type" =
          .ok (OperationType (Operation.inflation
            { base := { Links := none, ID := "", PT := "", SourceAccount := "",
                        Type' := "inflation", TypeI := 9, LedgerClosedAt := "",
                        TransactionHash := "", Order := 0 } })))) :=
  ⟨⟨rfl, C10_returned_type_matches_payload.1 _ _ rfl⟩,
   ⟨rfl, C10_returned_type_matches_payload.2 _ _ rfl⟩⟩

/-! ## Stream engine lemmas and claims -/

/-- Splitting the scan loop: if a prefix of the frames is consumed without
an early return, processing the whole list continues into the suffix with
the accumulated `objectBytes`. -/
theorem processFrames_append_none
    (handler : RawData → Option Err) (fs2 : List FrameCheck) :
    ∀ (fs1 : List FrameCheck) (ob del ob1 : _),
    processFrames handler fs1 ob = (del, ob1, none) →
    processFrames handler (fs1 ++ fs2) ob =
      (del ++ (processFrames handler fs2 ob1).1, (processFrames handler fs2 ob1).2)
  | [], ob, del, ob1, h => by
      injection h with h1 h2
      injection h2 with h2 h3
      subst h1; subst h2
      simp [processFrames]
  | ⟨true, frame⟩ :: fs, ob, del, ob1, h => by
      simp [processFrames] at h
  | ⟨false, FrameKind.empty⟩ :: fs, ob, del, ob1, h => by
      simp only [processFrames, List.cons_append] at h ⊢
      exact processFrames_append_none handler fs2 fs ob del ob1 h
  | ⟨false, FrameKind.malformed e⟩ :: fs, ob, del, ob1, h => by
      simp [processFrames] at h
  | ⟨false, FrameKind.event label d⟩ :: fs, ob, del, ob1, h => by
      by_cases hl : label = "message"
      · subst hl
        cases d with
        | str rd =>
          cases hh : handler rd with
          | some e => simp [processFrames, hh] at h
          | none =>
            rcases hr : processFrames handler fs (some rd) with ⟨del', ob', res'⟩
            simp only [processFrames, List.cons_append, hh, hr] at h
            injection h with h1 h2
            injection h2 with h2 h3
            subst h1; subst h2; subst h3
            have hrec := processFrames_append_none handler fs2 fs (some rd) del' ob' hr
            simp [processFrames, hh, hrec, List.cons_append]
        | bytes rd =>
          cases hh : handler rd with
          | some e => simp [processFrames, hh] at h
          | none =>
            rcases hr : processFrames handler fs (some rd) with ⟨del', ob', res'⟩
            simp only [processFrames, List.cons_append, hh, hr] at h
            injection h with h1 h2
            injection h2 with h2 h3
            subst h1; subst h2; subst h3
            have hrec := processFrames_append_none handler fs2 fs (some rd) del' ob' hr
            simp [processFrames, hh, hrec, List.cons_append]
        | other => simp [processFrames] at h
      · simp only [processFrames, List.cons_append, if_neg, hl] at h ⊢
        simp only [ne_eq, hl, not_false_iff, if_true] at h ⊢
        exact processFrames_append_none handler fs2 fs ob del ob1 h

/-- The final `objectBytes` of a scan loop is the last record delivered in
it (or the value it started with when nothing was delivered). -/
theorem processFrames_lastOb (handler : RawData → Option Err) :
    ∀ (fs : List FrameCheck) (ob : Option RawData) (del : List RawData)
      (ob1 : Option RawData) (res : Option RunResult),
    processFrames handler fs ob = (del, ob1, res) → ob1 = lastOf ob del
  | [], ob, del, ob1, res, h => by
      simp [processFrames] at h
      obtain ⟨rfl, rfl, rfl⟩ := h
      rfl
  | ⟨true, frame⟩ :: fs, ob, del, ob1, res, h => by
      simp [processFrames] at h
      obtain ⟨rfl, rfl, rfl⟩ := h
      rfl
  | ⟨false, FrameKind.empty⟩ :: fs, ob, del, ob1, res, h => by
      simp [processFrames] at h
      exact processFrames_lastOb handler fs ob del ob1 res h
  | ⟨false, FrameKind.malformed e⟩ :: fs, ob, del, ob1, res, h => by
      simp [processFrames] at h
      obtain ⟨rfl, rfl, rfl⟩ := h
      rfl
  | ⟨false, FrameKind.event label d⟩ :: fs, ob, del, ob1, res, h => by
      by_cases hl : label = "message"
      · subst hl
        cases d with
        | str rd =>
          cases hh : handler rd with
          | some e =>
            simp [processFrames, hh] at h
            obtain ⟨rfl, rfl, rfl⟩ := h
            rfl
          | none =>
            rcases hr : processFrames handler fs (some rd) with ⟨del', ob', res'⟩
            simp [processFrames, hh, hr] at h
            obtain ⟨rfl, rfl, rfl⟩ := h
            exact processFrames_lastOb handler fs (some rd) del' ob' res' hr
        | bytes rd =>
          cases hh : handler rd with
          | some e =>
            simp [processFrames, hh] at h
            obtain ⟨rfl, rfl, rfl⟩ := h
            rfl
          | none =>
            rcases hr : processFrames handler fs (some rd) with ⟨del', ob', res'⟩
            simp [processFrames, hh, hr] at h
            obtain ⟨rfl, rfl, rfl⟩ := h
            exact processFrames_lastOb handler fs (some rd) del' ob' res' hr
        | other =>
          simp [processFrames] at h
          obtain ⟨rfl, rfl, rfl⟩ := h
          rfl
      · simp [processFrames, hl] at h
        exact processFrames_lastOb handler fs ob del ob1 res h

/-- Records delivered during a scan that ends without an early return all
had a nil handler result, so the C6 checker skips over them. -/
theorem handlerErrorStopsRun_append (handler : RawData → Option Err) :
    ∀ (fs : List FrameCheck) (ob : Option RawData) (del : List RawData)
      (ob1 : Option RawData) (res : RunResult) (t : List Ev),
    processFrames handler fs ob = (del, ob1, none) →
    handlerErrorStopsRun handler res (del.map Ev.deliver ++ t) =
      handlerErrorStopsRun handler res t
  | [], ob, del, ob1, res, t, h => by
      simp [processFrames] at h
      obtain ⟨rfl, rfl⟩ := h
      rfl
  | ⟨true, frame⟩ :: fs, ob, del, ob1, res, t, h => by
      simp [processFrames] at h
  | ⟨false, FrameKind.empty⟩ :: fs, ob, del, ob1, res, t, h => by
      simp [processFrames] at h
      exact handlerErrorStopsRun_append handler fs ob del ob1 res t h
  | ⟨false, FrameKind.malformed e⟩ :: fs, ob, del, ob1, res, t, h => by
      simp [processFrames] at h
  | ⟨false, FrameKind.event label d⟩ :: fs, ob, del, ob1, res, t, h => by
      by_cases hl : label = "message"
      · subst hl
        cases d with
        | str rd =>
          cases hh : handler rd with
          | some e => simp [processFrames, hh] at h
          | none =>
            rcases hr : processFrames handler fs (some rd) with ⟨del', ob', res'⟩
            simp [processFrames, hh, hr] at h
            obtain ⟨rfl, rfl, rfl⟩ := h
            simp only [List.map_cons, List.cons_append, handlerErrorStopsRun, hh]
            exact handlerErrorStopsRun_append handler fs (some rd) del' ob' res t hr
        | bytes rd =>
          cases hh : handler rd with
          | some e => simp [processFrames, hh] at h
          | none =>
            rcases hr : processFrames handler fs (some rd) with ⟨del', ob', res'⟩
            simp [processFrames, hh, hr] at h
            obtain ⟨rfl, rfl, rfl⟩ := h
            simp only [List.map_cons, List.cons_append, handlerErrorStopsRun, hh]
            exact handlerErrorStopsRun_append handler fs (some rd) del' ob' res t hr
        | other => simp [processFrames] at h
      · simp [processFrames, hl] at h
        exact handlerErrorStopsRun_append handler fs ob del ob1 res t h

/-- When the scan loop returns early, its delivered records satisfy the C6
check against the value it returns: only the final delivery can carry a
handler error, and then the returned value is exactly that error. -/
theorem handlerErrorStopsRun_early (handler : RawData → Option Err) :
    ∀ (fs : List FrameCheck) (ob : Option RawData) (del : List RawData)
      (ob1 : Option RawData) (r : RunResult),
    processFrames handler fs ob = (del, ob1, some r) →
    handlerErrorStopsRun handler r (del.map Ev.deliver) = true
  | [], ob, del, ob1, r, h => by
      simp [processFrames] at h
  | ⟨true, frame⟩ :: fs, ob, del, ob1, r, h => by
      simp [processFrames] at h
      obtain ⟨rfl, rfl, rfl⟩ := h
      rfl
  | ⟨false, FrameKind.empty⟩ :: fs, ob, del, ob1, r, h => by
      simp [processFrames] at h
      exact handlerErrorStopsRun_early handler fs ob del ob1 r h
  | ⟨false, FrameKind.malformed e⟩ :: fs, ob, del, ob1, r, h => by
      simp [processFrames] at h
      obtain ⟨rfl, rfl, rfl⟩ := h
      rfl
  | ⟨false, FrameKind.event label d⟩ :: fs, ob, del, ob1, r, h => by
      by_cases hl : label = "message"
      · subst hl
        cases d with
        | str rd =>
          cases hh : handler rd with
          | some e =>
            simp [processFrames, hh] at h
            obtain ⟨rfl, rfl, rfl⟩ := h
            simp [handlerErrorStopsRun, hh]
          | none =>
            rcases hr : processFrames handler fs (some rd) with ⟨del', ob', res'⟩
            simp [processFrames, hh, hr] at h
            obtain ⟨rfl, rfl, rfl⟩ := h
            simp only [List.map_cons, handlerErrorStopsRun, hh]
            exact handlerErrorStopsRun_early handler fs (some rd) del' ob' r hr
        | bytes rd =>
          cases hh : handler rd with
          | some e =>
            simp [processFrames, hh] at h
            obtain ⟨rfl, rfl, rfl⟩ := h
            simp [handlerErrorStopsRun, hh]
          | none =>
            rcases hr : processFrames handler fs (some rd) with ⟨del', ob', res'⟩
            simp [processFrames, hh, hr] at h
            obtain ⟨rfl, rfl, rfl⟩ := h
            simp only [List.map_cons, handlerErrorStopsRun, hh]
            exact handlerErrorStopsRun_early handler fs (some rd) del' ob' r hr
        | other =>
          simp [processFrames] at h
          obtain ⟨rfl, rfl, rfl⟩ := h
          rfl
      · simp [processFrames, hl] at h
        exact handlerErrorStopsRun_early handler fs ob del ob1 r h

/-- Delivery events never fail the resumption check; they only advance the
tracked most-recent record. -/
theorem reconnects_append_delivers :
    ∀ (del : List RawData) (lastD : Option RawData) (t : List Ev),
    reconnectsFromLastDelivered lastD (del.map Ev.deliver ++ t) =
      reconnectsFromLastDelivered (lastOf lastD del) t
  | [], lastD, t => rfl
  | d :: del, lastD, t => by
      simp only [List.map_cons, List.cons_append, reconnectsFromLastDelivered]
      exact reconnects_append_delivers del (some d) t

/-- Delivery events contribute no requests. -/
theorem requestsOf_append_delivers :
    ∀ (del : List RawData) (t : List Ev),
    requestsOf (del.map Ev.deliver ++ t) = requestsOf t
  | [], t => rfl
  | d :: del, t => by
      simp only [List.map_cons, List.cons_append, requestsOf, List.filterMap_cons]
      exact requestsOf_append_delivers del t

/-- A request event contributes itself to the request list. -/
theorem requestsOf_cons_request (r : Request) (t : List Ev) :
    requestsOf (Ev.request r :: t) = r :: requestsOf t := by
  simp [requestsOf]

/-- With at least one connection attempt available, a run's trace starts
with the request for the current cursor. -/
theorem streamLoop_cons_shape (handler : RawData → Option Err) (url : String)
    (c : ConnResult) (conns : List ConnResult) (cursor : Option String) :
    ∃ t r, streamLoop handler url (c :: conns) cursor =
      { trace := Ev.request (mkStreamRequest url cursor) :: t, result := r } := by
  cases c with
  | failure e => exact ⟨[], _, rfl⟩
  | success body =>
    simp only [streamLoop]
    repeat' split
    all_goals exact ⟨_, _, rfl⟩

/-- A trace consisting only of deliveries passes the resumption check. -/
theorem reconnects_delivers_true (del : List RawData) (lastD : Option RawData) :
    reconnectsFromLastDelivered lastD (del.map Ev.deliver) = true := by
  simpa using reconnects_append_delivers del lastD []

/-- Once a record has been delivered, the tracked most-recent record stays
present. -/
theorem lastOf_some : ∀ (del : List RawData) (x : RawData), ∃ y, lastOf (some x) del = some y
  | [], x => ⟨x, rfl⟩
  | d :: del, _ => lastOf_some del d

/-- Resumption invariant of the engine loop: in the trace of any loop run,
every request after the head one carries the `paging_token` of the most
recently delivered record.  The tracked starting record `lastD` is
arbitrary because a reconnect can only follow a connection that delivered
at least one record. -/
theorem c3_aux (handler : RawData → Option Err) (url : String) :
    ∀ (conns : List ConnResult) (cursor : Option String) (lastD : Option RawData),
    checkTail lastD (streamLoop handler url conns cursor).trace = true
  | [], cursor, lastD => rfl
  | ConnResult.failure e :: conns, cursor, lastD => rfl
  | ConnResult.success body :: conns, cursor, lastD => by
      rcases hp : processFrames handler body.frames none with ⟨del, ob, res⟩
      cases res with
      | some r =>
        simp only [streamLoop, hp, checkTail]
        exact reconnects_delivers_true del lastD
      | none =>
        by_cases hs : body.scanErr = none ∨ body.scanErr = some Err.unexpectedEOF
        · cases hu : unmarshalPagingToken ob with
          | error e =>
            simp only [streamLoop, hp, if_pos hs, hu, checkTail]
            exact reconnects_delivers_true del lastD
          | ok pt =>
            by_cases hpt : pt = ""
            · subst hpt
              simp only [streamLoop, hp, if_pos hs, hu, ne_eq, not_true_eq_false,
                ite_false, if_false, checkTail]
              exact reconnects_delivers_true del lastD
            · simp only [streamLoop, hp, if_pos hs, hu, if_pos hpt, checkTail]
              rw [reconnects_append_delivers]
              have hob : ob = lastOf none del :=
                processFrames_lastOb handler body.frames none del ob none hp
              cases del with
              | nil =>
                rw [hob] at hu
                simp [unmarshalPagingToken, lastOf] at hu
              | cons d del' =>
                obtain ⟨d2, hd2⟩ := lastOf_some del' d
                have hob2 : ob = some d2 := hob.trans hd2
                have hL : lastOf lastD (d :: del') = ob := hd2.trans hob2.symm
                rw [hL]
                cases conns with
                | nil => rfl
                | cons c cs =>
                  obtain ⟨t, r, hshape⟩ := streamLoop_cons_shape handler url c cs (some pt)
                  rw [hshape]
                  simp only [reconnectsFromLastDelivered, mkStreamRequest, Bool.and_eq_true]
                  constructor
                  · rw [hob2] at hu ⊢
                    simp [cursorMatchesLast, hu]
                  · have hrec := c3_aux handler url (c :: cs) (some pt) ob
                    rw [hshape] at hrec
                    exact hrec
        · rcases hscan : body.scanErr with _ | e
          · exact absurd (Or.inl hscan) hs
          · simp only [streamLoop, hp]
            rw [if_neg hs]
            simp only [hscan, checkTail]
            exact reconnects_delivers_true del lastD

/-- Handler-error invariant of the engine loop: every delivery whose
handler result is an error ends the trace, and the loop returns exactly
that error. -/
theorem c6_aux (handler : RawData → Option Err) (url : String) :
    ∀ (conns : List ConnResult) (cursor : Option String),
    handlerErrorStopsRun handler (streamLoop handler url conns cursor).result
      (streamLoop handler url conns cursor).trace = true
  | [], cursor => rfl
  | ConnResult.failure e :: conns, cursor => rfl
  | ConnResult.success body :: conns, cursor => by
      rcases hp : processFrames handler body.frames none with ⟨del, ob, res⟩
      cases res with
      | some r =>
        simp only [streamLoop, hp, handlerErrorStopsRun]
        exact handlerErrorStopsRun_early handler body.frames none del ob r hp
      | none =>
        by_cases hs : body.scanErr = none ∨ body.scanErr = some Err.unexpectedEOF
        · cases hu : unmarshalPagingToken ob with
          | error e =>
            simp only [streamLoop, hp, if_pos hs, hu, handlerErrorStopsRun]
            simpa using handlerErrorStopsRun_append handler body.frames none del ob
              (RunResult.error (e.wrap "error unmarshaling objectBytes")) [] hp
          | ok pt =>
            by_cases hpt : pt = ""
            · subst hpt
              simp only [streamLoop, hp, if_pos hs, hu, ne_eq, not_true_eq_false,
                ite_false, if_false, handlerErrorStopsRun]
              simpa using handlerErrorStopsRun_append handler body.frames none del ob
                (RunResult.error (Err.msg "no paging_token in object: cannot continue")) [] hp
            · simp only [streamLoop, hp, if_pos hs, hu, if_pos hpt, handlerErrorStopsRun]
              rw [handlerErrorStopsRun_append handler body.frames none del ob _ _ hp]
              exact c6_aux handler url conns (some pt)
        · rcases hscan : body.scanErr with _ | e
          · exact absurd (Or.inl hscan) hs
          · simp only [streamLoop, hp]
            rw [if_neg hs]
            simp only [hscan, handlerErrorStopsRun]
            simpa using handlerErrorStopsRun_append handler body.frames none del ob
              (RunResult.error e) [] hp

/-- Request-shape invariant of the engine loop: every request is a GET on
the base URL with the event-stream Accept header; the first request
carries the entry cursor and all later ones a non-empty reconnect
cursor. -/
theorem c9_aux (handler : RawData → Option Err) (url : String) :
    ∀ (conns : List ConnResult) (cursor : Option String),
    (∀ r ∈ requestsOf (streamLoop handler url conns cursor).trace,
        r.method = "GET" ∧ r.baseURL = url ∧
          r.headers = [("Accept", "text/event-stream")]) ∧
    (∀ r rs, requestsOf (streamLoop handler url conns cursor).trace = r :: rs →
        r.cursor = cursor ∧ ∀ r2 ∈ rs, ∃ pt, r2.cursor = some pt ∧ pt ≠ "")
  | [], cursor => by
      constructor
      · intro r hr; simp [streamLoop, requestsOf] at hr
      · intro r rs h; simp [streamLoop, requestsOf] at h
  | ConnResult.failure e :: conns, cursor => by
      constructor
      · intro r hr
        simp only [streamLoop, requestsOf_cons_request] at hr
        simp only [requestsOf] at hr
        rcases List.mem_cons.mp hr with rfl | hr
        · exact ⟨rfl, rfl, rfl⟩
        · simp at hr
      · intro r rs h
        simp only [streamLoop, requestsOf_cons_request] at h
        simp only [requestsOf] at h
        injection h with h1 h2
        subst h1
        constructor
        · rfl
        · intro r2 hr2
          rw [← h2] at hr2
          simp at hr2
  | ConnResult.success body :: conns, cursor => by
      rcases hp : processFrames handler body.frames none with ⟨del, ob, res⟩
      have hterm : ∀ (t : List Ev), t = del.map Ev.deliver →
          requestsOf (Ev.request (mkStreamRequest url cursor) :: t) =
            [mkStreamRequest url cursor] := by
        intro t ht
        subst ht
        rw [requestsOf_cons_request]
        simpa using requestsOf_append_delivers del []
      have hone : ∀ (t : List Ev),
          requestsOf (Ev.request (mkStreamRequest url cursor) :: t) =
            [mkStreamRequest url cursor] →
          (∀ r ∈ requestsOf (Ev.request (mkStreamRequest url cursor) :: t),
              r.method = "GET" ∧ r.baseURL = url ∧
                r.headers = [("Accept", "text/event-stream")]) ∧
          (∀ r rs, requestsOf (Ev.request (mkStreamRequest url cursor) :: t) = r :: rs →
              r.cursor = cursor ∧ ∀ r2 ∈ rs, ∃ pt, r2.cursor = some pt ∧ pt ≠ "") := by
        intro t ht
        rw [ht]
        constructor
        · intro r hr
          rcases List.mem_cons.mp hr with rfl | hr
          · exact ⟨rfl, rfl, rfl⟩
          · simp at hr
        · intro r rs h
          injection h with h1 h2
          subst h1
          exact ⟨rfl, by intro r2 hr2; rw [← h2] at hr2; simp at hr2⟩
      cases res with
      | some r =>
        simp only [streamLoop, hp]
        exact hone _ (hterm _ rfl)
      | none =>
        by_cases hs : body.scanErr = none ∨ body.scanErr = some Err.unexpectedEOF
        · cases hu : unmarshalPagingToken ob with
          | error e =>
            simp only [streamLoop, hp, if_pos hs, hu]
            exact hone _ (hterm _ rfl)
          | ok pt =>
            by_cases hpt : pt = ""
            · subst hpt
              simp only [streamLoop, hp, if_pos hs, hu, ne_eq, not_true_eq_false,
                ite_false, if_false]
              exact hone _ (hterm _ rfl)
            · simp only [streamLoop, hp, if_pos hs, hu, if_pos hpt]
              have hih := c9_aux handler url conns (some pt)
              have hreq : requestsOf
                  (Ev.request (mkStreamRequest url cursor) ::
                    (del.map Ev.deliver ++ (streamLoop handler url conns (some pt)).trace)) =
                  mkStreamRequest url cursor ::
                    requestsOf (streamLoop handler url conns (some pt)).trace := by
                rw [requestsOf_cons_request, requestsOf_append_delivers]
              constructor
              · intro r hr
                rw [hreq] at hr
                rcases List.mem_cons.mp hr with rfl | hr
                · exact ⟨rfl, rfl, rfl⟩
                · exact hih.1 r hr
              · intro r rs h
                rw [hreq] at h
                injection h with h1 h2
                subst h1
                constructor
                · rfl
                · intro r2 hr2
                  rw [← h2] at hr2
                  rcases hrest : requestsOf (streamLoop handler url conns (some pt)).trace with
                    _ | ⟨r3, rs3⟩
                  · rw [hrest] at hr2; simp at hr2
                  · rw [hrest] at hr2
                    have hih2 := hih.2 r3 rs3 hrest
                    rcases List.mem_cons.mp hr2 with rfl | hr2
                    · exact ⟨pt, hih2.1, hpt⟩
                    · exact hih2.2 r2 hr2
        · rcases hscan : body.scanErr with _ | e
          · exact absurd (Or.inl hscan) hs
          · simp only [streamLoop, hp]
            rw [if_neg hs]
            simp only [hscan]
            exact hone _ (hterm _ rfl)

/-- C3: in every run of the stream engine, the cursor query parameter sent
on a reconnect equals the `paging_token` field of the most recently
handler-delivered record; no reconnect ever uses the position of a record
that was not delivered to the handler. -/
theorem C3_reconnect_uses_last_delivered :
    ∀ (url : String) (conns : List ConnResult) (cursor : Option String)
      (handler : RawData → Option Err),
    resumesFromLastDelivered (stream url conns cursor handler).trace = true := by
  intro url conns cursor handler
  exact c3_aux handler url conns cursor none

/-- C4, counterexample: the claim says that when the body is exhausted
with a non-empty current position, the engine reconnects using that
position, including a caller-supplied start position when no record was
delivered on that connection.  On the concrete run with caller cursor
`"c0"` and one cleanly exhausted connection delivering no records, the
engine issues no second request: it terminates with the wrapped unmarshal
error produced by decoding the nil `objectBytes`. -/
theorem C4_counterexample :
    stream "http://horizon.example/effects"
      [ConnResult.success { frames := [], scanErr := none }] (some "c0") (fun _ => none) =
      { trace := [Ev.request (mkStreamRequest "http://horizon.example/effects" (some "c0"))],
        result := RunResult.error
          ((Err.jsonErr "unexpected end of JSON input").wrap "error unmarshaling objectBytes") } := rfl

/-- C4, amended: whenever the body is exhausted without a fatal I/O error
(nil scanner error or unexpected EOF): if no record was delivered on that
connection, the run terminates with the wrapped unmarshal error — even
when the caller supplied a start position; if the last delivered record's
`paging_token` is a non-empty string, the engine reconnects using exactly
that token; if it is empty, the run terminates with the
no-paging-token resumption error.  In no case does the engine loop without
either reconnecting from a delivered record or terminating. -/
theorem C4_body_exhaustion_behavior :
    (∀ (url : String) (q : Option String) (handler : RawData → Option Err)
       (frames : List FrameCheck) (scanErr : Option Err) (rest : List ConnResult)
       (ob : Option RawData),
      (scanErr = none ∨ scanErr = some Err.unexpectedEOF) →
      processFrames handler frames none = ([], ob, none) →
      streamLoop handler url (ConnResult.success ⟨frames, scanErr⟩ :: rest) q =
        { trace := [Ev.request (mkStreamRequest url q)],
          result := RunResult.error
            ((Err.jsonErr "unexpected end of JSON input").wrap "error unmarshaling objectBytes") }) ∧
    (∀ (url : String) (q : Option String) (handler : RawData → Option Err)
       (frames : List FrameCheck) (scanErr : Option Err) (rest : List ConnResult)
       (del : List RawData) (ob : Option RawData) (pt : String),
      (scanErr = none ∨ scanErr = some Err.unexpectedEOF) →
      processFrames handler frames none = (del, ob, none) →
      unmarshalPagingToken ob = .ok pt → pt ≠ "" →
      streamLoop handler url (ConnResult.success ⟨frames, scanErr⟩ :: rest) q =
        { trace := Ev.request (mkStreamRequest url q) ::
            (del.map Ev.deliver ++ (streamLoop handler url rest (some pt)).trace),
          result := (streamLoop handler url rest (some pt)).result }) ∧
    (∀ (url : String) (q : Option String) (handler : RawData → Option Err)
       (frames : List FrameCheck) (scanErr : Option Err) (rest : List ConnResult)
       (del : List RawData) (ob : Option RawData),
      (scanErr = none ∨ scanErr = some Err.unexpectedEOF) →
      processFrames handler frames none = (del, ob, none) →
      unmarshalPagingToken ob = .ok "" →
      streamLoop handler url (ConnResult.success ⟨frames, scanErr⟩ :: rest) q =
        { trace := Ev.request (mkStreamRequest url q) :: del.map Ev.deliver,
          result := RunResult.error (Err.msg "no paging_token in object: cannot continue") }) := by
  refine ⟨?_, ?_, ?_⟩
  · intro url q handler frames scanErr rest ob hs hp
    have hob : ob = none := by
      simpa [lastOf] using processFrames_lastOb handler frames none [] ob none hp
    subst hob
    rcases hs with rfl | rfl <;> simp [streamLoop, hp, unmarshalPagingToken]
  · intro url q handler frames scanErr rest del ob pt hs hp hu hpt
    rcases hs with rfl | rfl <;> simp [streamLoop, hp, hu, hpt]
  · intro url q handler frames scanErr rest del ob hs hp hu
    rcases hs with rfl | rfl <;> simp [streamLoop, hp, hu]

/-- C4, witness: the amended theorem applied to three concrete runs — an
empty connection with a caller cursor, a connection delivering one record
with token `"5"`, and a connection delivering one record with an empty
token. -/
theorem C4_witness :
    (((none : Option Err) = none ∨ (none : Option Err) = some Err.unexpectedEOF) ∧
     processFrames (fun _ => none) [] none = ([], none, none) ∧
     streamLoop (fun _ => none) "u" [ConnResult.success ⟨[], none⟩] (some "c0") =
       { trace := [Ev.request (mkStreamRequest "u" (some "c0"))],
         result := RunResult.error
           ((Err.jsonErr "unexpected end of JSON input").wrap "error unmarshaling objectBytes") }) ∧
    (unmarshalPagingToken
        (some (RawData.valid (Json.obj [("paging_token", Json.str "5")]))) = .ok "5" ∧
     ("5" : String) ≠ "" ∧
     streamLoop (fun _ => none) "u"
        [ConnResult.success
          { frames := [{ ctxDone := false,
                         frame := FrameKind.event "message"
                           (EvData.str (RawData.valid (Json.obj [("paging_token", Json.str "5")]))) }],
            scanErr := none }] none =
       { trace := Ev.request (mkStreamRequest "u" none) ::
           ([RawData.valid (Json.obj [("paging_token", Json.str "5")])].map Ev.deliver ++
             (streamLoop (fun _ => none) "u" [] (some "5")).trace),
         result := (streamLoop (fun _ => none) "u" [] (some "5")).result }) ∧
    (unmarshalPagingToken
        (some (RawData.valid (Json.obj [("paging_token", Json.str "")]))) = .ok "" ∧
     streamLoop (fun _ => none) "u"
        [ConnResult.success
          { frames := [{ ctxDone := false,
                         frame := FrameKind.event "message"
                           (EvData.str (RawData.valid (Json.obj [("paging_token", Json.str "")]))) }],
            scanErr := none }] none =
       { trace := Ev.request (mkStreamRequest "u" none) ::
           [RawData.valid (Json.obj [("paging_token", Json.str "")])].map Ev.deliver,
         result := RunResult.error (Err.msg "no paging_token in object: cannot continue") }) :=
  ⟨⟨Or.inl rfl, rfl,
    C4_body_exhaustion_behavior.1 "u" (some "c0") (fun _ => none) [] none [] none
      (Or.inl rfl) rfl⟩,
   ⟨rfl, by decide,
    C4_body_exhaustion_behavior.2.1 "u" none (fun _ => none) _ none []
      [RawData.valid (Json.obj [("paging_token", Json.str "5")])]
      (some (RawData.valid (Json.obj [("paging_token", Json.str "5")]))) "5"
      (Or.inl rfl) rfl rfl (by decide)⟩,
   ⟨rfl,
    C4_body_exhaustion_behavior.2.2 "u" none (fun _ => none) _ none []
      [RawData.valid (Json.obj [("paging_token", Json.str "")])]
      (some (RawData.valid (Json.obj [("paging_token", Json.str "")])))
      (Or.inl rfl) rfl rfl⟩⟩

/-- C5, counterexample: the claim says a frame that fails to parse is
skipped and iteration continues.  On the concrete run whose body holds a
malformed frame followed by a well-formed record frame, the run instead
terminates with the framing error and the later record is never
delivered. -/
theorem C5_counterexample :
    stream "u"
      [ConnResult.success
        { frames :=
            [{ ctxDone := false, frame := FrameKind.malformed (Err.msg "bad frame") },
             { ctxDone := false,
               frame := FrameKind.event "message"
                 (EvData.str (RawData.valid (Json.obj [("paging_token", Json.str "5")]))) }],
          scanErr := none }]
      none (fun _ => none) =
      { trace := [Ev.request (mkStreamRequest "u" none)],
        result := RunResult.error (Err.msg "bad frame") } := rfl

/-- C5, amended: a frame that fails to parse into the label:value shape
terminates the run with exactly the parse error; the frame is not skipped,
no later frame of the body is processed, and no reconnect is attempted. -/
theorem C5_malformed_frame_terminates_run :
    ∀ (url : String) (q : Option String) (handler : RawData → Option Err)
      (fs1 : List FrameCheck) (e : Err) (fs2 : List FrameCheck)
      (scanErr : Option Err) (rest : List ConnResult)
      (del : List RawData) (ob : Option RawData),
    processFrames handler fs1 none = (del, ob, none) →
    streamLoop handler url
        (ConnResult.success ⟨fs1 ++ ⟨false, FrameKind.malformed e⟩ :: fs2, scanErr⟩ :: rest) q =
      { trace := Ev.request (mkStreamRequest url q) :: del.map Ev.deliver,
        result := RunResult.error e } := by
  intro url q handler fs1 e fs2 scanErr rest del ob hp
  have h1 : processFrames handler (⟨false, FrameKind.malformed e⟩ :: fs2) ob =
      ([], ob, some (RunResult.error e)) := by
    simp [processFrames]
  have h2 := processFrames_append_none handler (⟨false, FrameKind.malformed e⟩ :: fs2)
    fs1 none del ob hp
  rw [h1] at h2
  simp only [List.append_nil] at h2
  simp [streamLoop, h2]

/-- C5, witness: the amended theorem applied to a run whose first frame is
malformed. -/
theorem C5_witness :
    (processFrames (fun _ => none) [] none =
        (([] : List RawData), (none : Option RawData), (none : Option RunResult))) ∧
    streamLoop (fun _ => none) "u"
        (ConnResult.success ⟨[] ++ ⟨false, FrameKind.malformed (Err.msg "bad frame")⟩ :: [], none⟩ :: []) none =
      { trace := Ev.request (mkStreamRequest "u" none) :: ([] : List RawData).map Ev.deliver,
        result := RunResult.error (Err.msg "bad frame") } :=
  ⟨rfl, C5_malformed_frame_terminates_run "u" none (fun _ => none) [] (Err.msg "bad frame")
    [] none [] [] none rfl⟩

/-- C6: in every run, a record on which the handler returns an error is
the final event of the trace — the run returns that exact error, no later
record is delivered, and no reconnect is attempted. -/
theorem C6_handler_error_terminates_run :
    ∀ (url : String) (conns : List ConnResult) (cursor : Option String)
      (handler : RawData → Option Err),
    handlerErrorStopsRun handler (stream url conns cursor handler).result
      (stream url conns cursor handler).trace = true := by
  intro url conns cursor handler
  exact c6_aux handler url conns cursor

/-- C7: the cancellation signal is polled before each frame is processed;
once it is observed the run returns nil (`RunResult.ok`, not an error),
the handler is not invoked again in that run, and no reconnect happens:
the trace ends with the records delivered before the cancelled check. -/
theorem C7_cancellation_returns_nil :
    ∀ (url : String) (q : Option String) (handler : RawData → Option Err)
      (fs1 : List FrameCheck) (f : FrameCheck) (fs2 : List FrameCheck)
      (scanErr : Option Err) (rest : List ConnResult)
      (del : List RawData) (ob : Option RawData),
    f.ctxDone = true →
    processFrames handler fs1 none = (del, ob, none) →
    streamLoop handler url (ConnResult.success ⟨fs1 ++ f :: fs2, scanErr⟩ :: rest) q =
      { trace := Ev.request (mkStreamRequest url q) :: del.map Ev.deliver,
        result := RunResult.ok } := by
  intro url q handler fs1 f fs2 scanErr rest del ob hctx hp
  have h1 : processFrames handler (f :: fs2) ob = ([], ob, some RunResult.ok) := by
    cases f with
    | mk c fr =>
      cases hctx
      simp [processFrames]
  have h2 := processFrames_append_none handler (f :: fs2) fs1 none del ob hp
  rw [h1] at h2
  simp only [List.append_nil] at h2
  simp [streamLoop, h2]

/-- C7, witness: the theorem applied to a run cancelled at the first frame
of its only connection. -/
theorem C7_witness :
    ((⟨true, FrameKind.empty⟩ : FrameCheck).ctxDone = true ∧
     processFrames (fun _ => none) [] none =
       (([] : List RawData), (none : Option RawData), (none : Option RunResult))) ∧
    streamLoop (fun _ => none) "u"
        (ConnResult.success ⟨[] ++ (⟨true, FrameKind.empty⟩ : FrameCheck) :: [], none⟩ :: []) (some "c0") =
      { trace := Ev.request (mkStreamRequest "u" (some "c0")) :: ([] : List RawData).map Ev.deliver,
        result := RunResult.ok } :=
  ⟨⟨rfl, rfl⟩, C7_cancellation_returns_nil "u" (some "c0") (fun _ => none) []
    ⟨true, FrameKind.empty⟩ [] none [] [] none rfl rfl⟩

/-- C8: a scanner error that is not `io.ErrUnexpectedEOF` (and not nil)
terminates the run immediately with that exact error and no reconnect
attempt; only a nil scanner error or an unexpected EOF reaches the
reconnect path. -/
theorem C8_fatal_scan_error_terminates_run :
    ∀ (url : String) (q : Option String) (handler : RawData → Option Err)
      (frames : List FrameCheck) (e : Err) (rest : List ConnResult)
      (del : List RawData) (ob : Option RawData),
    e ≠ Err.unexpectedEOF →
    processFrames handler frames none = (del, ob, none) →
    streamLoop handler url (ConnResult.success ⟨frames, some e⟩ :: rest) q =
      { trace := Ev.request (mkStreamRequest url q) :: del.map Ev.deliver,
        result := RunResult.error e } := by
  intro url q handler frames e rest del ob he hp
  simp [streamLoop, hp, he]

/-- C8, witness: the theorem applied to a run whose only connection fails
with a DNS-style error. -/
theorem C8_witness :
    (Err.msg "dial tcp: lookup failed" ≠ Err.unexpectedEOF ∧
     processFrames (fun _ => none) [] none =
       (([] : List RawData), (none : Option RawData), (none : Option RunResult))) ∧
    streamLoop (fun _ => none) "u"
        (ConnResult.success ⟨[], some (Err.msg "dial tcp: lookup failed")⟩ :: []) none =
      { trace := Ev.request (mkStreamRequest "u" none) :: ([] : List RawData).map Ev.deliver,
        result := RunResult.error (Err.msg "dial tcp: lookup failed") } :=
  ⟨⟨by decide, rfl⟩, C8_fatal_scan_error_terminates_run "u" none (fun _ => none) []
    (Err.msg "dial tcp: lookup failed") [] [] none (by decide) rfl⟩

/-- C9: every connection attempt issues a GET request to the endpoint
carrying the `Accept: text/event-stream` header; the first request's
cursor parameter is exactly the caller's position (absent when the caller
passed none), and every reconnect request carries a non-empty cursor. -/
theorem C9_request_shape :
    ∀ (url : String) (conns : List ConnResult) (cursor : Option String)
      (handler : RawData → Option Err),
    (∀ r ∈ requestsOf (stream url conns cursor handler).trace,
        r.method = "GET" ∧ r.baseURL = url ∧
          r.headers = [("Accept", "text/event-stream")]) ∧
    (∀ r rs, requestsOf (stream url conns cursor handler).trace = r :: rs →
        r.cursor = cursor ∧ ∀ r2 ∈ rs, ∃ pt, r2.cursor = some pt ∧ pt ≠ "") := by
  intro url conns cursor handler
  exact c9_aux handler url conns cursor

/-- C9, witness: the theorem applied to a one-connection run with caller
cursor `"c0"`. -/
theorem C9_witness :
    (mkStreamRequest "u" (some "c0") ∈
        requestsOf (stream "u" [ConnResult.failure (Err.msg "boom")] (some "c0")
          (fun _ => none)).trace ∧
     (mkStreamRequest "u" (some "c0")).method = "GET" ∧
     (mkStreamRequest "u" (some "c0")).baseURL = "u" ∧
     (mkStreamRequest "u" (some "c0")).headers = [("Accept", "text/event-stream")]) ∧
    (requestsOf (stream "u" [ConnResult.failure (Err.msg "boom")] (some "c0")
        (fun _ => none)).trace = mkStreamRequest "u" (some "c0") :: [] ∧
     (mkStreamRequest "u" (some "c0")).cursor = some "c0" ∧
     ∀ r2 ∈ ([] : List Request), ∃ pt, r2.cursor = some pt ∧ pt ≠ "") :=
  ⟨⟨List.Mem.head _,
    (C9_request_shape "u" [ConnResult.failure (Err.msg "boom")] (some "c0") (fun _ => none)).1
      (mkStreamRequest "u" (some "c0")) (List.Mem.head _)⟩,
   ⟨rfl,
    (C9_request_shape "u" [ConnResult.failure (Err.msg "boom")] (some "c0") (fun _ => none)).2
      (mkStreamRequest "u" (some "c0")) [] rfl⟩⟩
